import Mathlib

/-!
Shallow embedding of the panicList-backend order / payment subsystem.

The embedding follows the JavaScript source:
  * `src/models/Order.js` — order statuses, Joi validation, document create/update;
  * `src/services/orderService.js` — the `OrderService` operations;
  * `src/routes/webhooks.js` — the Stripe webhook event handlers;
  * `src/models/ProviderPlan.js` and `src/services/providerPlanService.js` — plans;
  * `src/services/feedbackService.js` — feedback creation and rating aggregation.

Conventions: Firestore documents become Lean structures, a collection becomes a
function from document id to an optional document, JavaScript `Date` values
become epoch milliseconds (`Int`), JavaScript numbers become `ℚ`, and a JS
function that can `throw` becomes `Except String`, carrying the error message
(with the `Failed to ...:` wrappers the services prepend in their catch blocks).
-/

namespace PanicList

/-- Epoch milliseconds, as produced by `Date.now()` / `new Date()`. -/
abbrev Date := Int

/-- Milliseconds in one day (`1000 * 60 * 60 * 24`). -/
def msPerDay : Int := 86400000

/-- JavaScript string fallback `a || b`: `b` when `a` is absent or empty. -/
def jsOrStr (a : Option String) (b : String) : String :=
  match a with
  | some s => if s = "" then b else s
  | none => b

/-- JavaScript `Math.round` (half toward positive infinity). -/
def jsRound (q : ℚ) : Int := Int.floor (q + 1/2)

/-- `ORDER_STATUS` values of `src/models/Order.js`. -/
def ORDER_STATUSES : List String :=
  ["pending", "confirmed", "in_progress", "completed", "cancelled", "refunded"]

/-- `PAYMENT_STATUS` values of `src/models/Order.js`. -/
def PAYMENT_STATUSES : List String :=
  ["pending", "paid", "failed", "refunded", "partially_refunded"]

/-- `serviceDetails.pricing` of the order schema. -/
structure ServicePricing where
  type : String
  amount : ℚ
  currency : String
  description : String
  deriving Repr, DecidableEq

/-- `serviceDetails` of the order schema. -/
structure ServiceDetails where
  title : String
  category : String
  description : String
  pricing : ServicePricing
  deriving Repr, DecidableEq

/-- `bookingDetails` of the order schema; `scheduledDate` is the parsed ISO date. -/
structure BookingDetails where
  scheduledDate : Date
  scheduledTime : String
  duration : Option ℚ
  address : String
  notes : String
  specialInstructions : String
  deriving Repr, DecidableEq

/-- The `pricing` breakdown of the order schema. -/
structure OrderPricing where
  baseAmount : ℚ
  taxes : ℚ
  fees : ℚ
  discounts : ℚ
  totalAmount : ℚ
  currency : String
  deriving Repr, DecidableEq

/-- One entry of the order's `messages` list. -/
structure OrderMessage where
  senderId : String
  senderType : String
  message : String
  timestamp : Date
  isRead : Bool
  deriving Repr, DecidableEq

/-- The order's `review` sub-document (document-style: fields optional). -/
structure ReviewData where
  rating : Option ℚ
  comment : Option String
  submittedAt : Option Date
  deriving Repr, DecidableEq

/-- The order's `cancellation` sub-document. -/
structure CancellationData where
  reason : Option String
  cancelledBy : Option String
  cancelledAt : Option Date
  refundAmount : Option ℚ
  deriving Repr, DecidableEq

/-- An order document as stored in the `orders` collection. -/
structure Order where
  customerId : String
  providerId : String
  listingId : String
  serviceDetails : ServiceDetails
  bookingDetails : BookingDetails
  pricing : OrderPricing
  status : String
  paymentStatus : String
  orderNumber : String
  actualStartTime : Option Date
  actualEndTime : Option Date
  messages : List OrderMessage
  review : Option ReviewData
  cancellation : Option CancellationData
  createdAt : Date
  updatedAt : Date
  deriving Repr, DecidableEq

/-- The `orders` collection: document id to document. -/
abbrev Store := String → Option Order

/-- Write one document of the collection. -/
def Store.set (s : Store) (id : String) (o : Order) : Store :=
  fun k => if k = id then some o else s k

/-- Zero out `updatedAt`, to compare order states up to the timestamp bump. -/
def Order.clearUpdatedAt (o : Order) : Order := { o with updatedAt := 0 }

/-- Zero out every `updatedAt` of a collection. -/
def clearStoreUpdatedAt (s : Store) : Store := fun k => (s k).map Order.clearUpdatedAt

/-- The shape of an `updateData` object passed to `OrderService.updateOrder`
(the keys the order service actually sends; `updateOrderDocument` validates it
against the all-optional fork of the order schema). -/
structure UpdateData where
  status : Option String
  paymentStatus : Option String
  actualStartTime : Option Date
  actualEndTime : Option Date
  review : Option ReviewData
  cancellation : Option CancellationData
  deriving Repr, DecidableEq

/-- An `updateData` object with no keys. -/
def emptyUpdate : UpdateData := ⟨none, none, none, none, none, none⟩

/-- The Joi checks of the forked (all-optional) order schema on an update
object, collecting every violation (`abortEarly: false`). -/
def validateUpdateData (u : UpdateData) : List String :=
  (match u.status with
   | some s =>
     if ORDER_STATUSES.contains s then []
     else ["status must be one of pending, confirmed, in_progress, completed, cancelled, refunded"]
   | none => []) ++
  (match u.paymentStatus with
   | some s =>
     if PAYMENT_STATUSES.contains s then []
     else ["paymentStatus must be one of pending, paid, failed, refunded, partially_refunded"]
   | none => []) ++
  (match u.review with
   | some r =>
     match r.rating with
     | some q => if 1 ≤ q ∧ q ≤ 5 then [] else ["review.rating must be between 1 and 5"]
     | none => []
   | none => []) ++
  (match u.cancellation with
   | some c =>
     (match c.cancelledBy with
      | some b =>
        if (["customer", "provider", "admin"] : List String).contains b then []
        else ["cancellation.cancelledBy must be one of customer, provider, admin"]
      | none => []) ++
     (match c.refundAmount with
      | some q => if 0 ≤ q then [] else ["cancellation.refundAmount must be greater than or equal to 0"]
      | none => [])
   | none => [])

/-- The merge `{...existingOrder, ...value, updatedAt: now}` performed by
`updateOrderDocument`. `value` is the output of validating the partial update
against `orderSchema.fork(all keys → optional)` — and Joi applies `.default()`
to every key ABSENT from the input, so `value` always carries
`status: 'pending'`, `paymentStatus: 'pending'` and `messages: []` when the
update does not set them itself, and the spread writes those defaults over the
stored values. Keys without a schema default (`actualStartTime`,
`actualEndTime`, `review`, `cancellation`) stay absent when not supplied, so
the stored value survives for them. None of the update objects the order
service sends carries a `messages` key, so the merge always resets `messages`
to the injected `[]` default. -/
def applyUpdate (o : Order) (u : UpdateData) (now : Date) : Order :=
  { o with
    status := u.status.getD "pending"
    paymentStatus := u.paymentStatus.getD "pending"
    messages := []
    actualStartTime := match u.actualStartTime with | some t => some t | none => o.actualStartTime
    actualEndTime := match u.actualEndTime with | some t => some t | none => o.actualEndTime
    review := match u.review with | some r => some r | none => o.review
    cancellation := match u.cancellation with | some c => some c | none => o.cancellation
    updatedAt := now }

/-- Prepend the `Failed to ...:` prefix a service catch block adds. -/
def wrapError (p : String) : Except String α → Except String α
  | .error e => .error (p ++ e)
  | .ok v => .ok v

/-- `OrderService.updateOrder`: load, authorize, validate, merge, write. -/
def updateOrder (store : Store) (now : Date) (orderId : String) (u : UpdateData)
    (userId userType : String) : Except String (Order × Store) :=
  match store orderId with
  | none => .error "Failed to update order: Order not found"
  | some existingOrder =>
    if (userType = "customer" ∨ userType = "client") ∧ existingOrder.customerId ≠ userId then
      .error "Failed to update order: Unauthorized: You can only update your own orders"
    else if userType = "provider" ∧ existingOrder.providerId ≠ userId then
      .error "Failed to update order: Unauthorized: You can only update orders for your services"
    else if validateUpdateData u = [] then
      let updated := applyUpdate existingOrder u now
      .ok (updated, store.set orderId updated)
    else
      .error ("Failed to update order: Validation error: " ++
        String.intercalate ", " (validateUpdateData u))

/-- `OrderService.updateOrderStatus`: enum check, stamp actual times, update. -/
def updateOrderStatus (store : Store) (now : Date)
    (orderId status userId userType : String) : Except String (Order × Store) :=
  if ORDER_STATUSES.contains status then
    wrapError "Failed to update order status: "
      (updateOrder store now orderId
        { emptyUpdate with
          status := some status
          actualStartTime := if status = "in_progress" then some now else none
          actualEndTime := if status = "completed" then some now else none }
        userId userType)
  else
    .error ("Failed to update order status: Invalid status. Must be one of: " ++
      String.intercalate ", " ORDER_STATUSES)

/-- `OrderService.updatePaymentStatus`: enum check, update. -/
def updatePaymentStatus (store : Store) (now : Date)
    (orderId paymentStatus userId userType : String) : Except String (Order × Store) :=
  if PAYMENT_STATUSES.contains paymentStatus then
    wrapError "Failed to update payment status: "
      (updateOrder store now orderId { emptyUpdate with paymentStatus := some paymentStatus }
        userId userType)
  else
    .error ("Failed to update payment status: Invalid payment status. Must be one of: " ++
      String.intercalate ", " PAYMENT_STATUSES)

/-- `OrderService.cancelOrder`: terminal-status guard, authorization, then a
status update carrying the cancellation record. -/
def cancelOrder (store : Store) (now : Date) (orderId : String)
    (cancellationData : CancellationData) (userId userType : String) :
    Except String (Order × Store) :=
  wrapError "Failed to cancel order: "
    (match store orderId with
     | none => .error "Order not found"
     | some existingOrder =>
       if existingOrder.status = "completed" then .error "Cannot cancel a completed order"
       else if existingOrder.status = "cancelled" then .error "Order is already cancelled"
       else if userType = "customer" ∧ existingOrder.customerId ≠ userId then
         .error "Unauthorized: You can only cancel your own orders"
       else if userType = "provider" ∧ existingOrder.providerId ≠ userId then
         .error "Unauthorized: You can only cancel orders for your services"
       else
         updateOrder store now orderId
           { emptyUpdate with
             status := some "cancelled"
             cancellation := some { cancellationData with
               cancelledBy := some userType
               cancelledAt := some now } }
           userId userType)

/-- `OrderService.addReview`: only the owning customer, only once the order is
completed, and only while no review exists. -/
def addReview (store : Store) (now : Date) (orderId : String) (reviewData : ReviewData)
    (userId userType : String) : Except String (Order × Store) :=
  wrapError "Failed to add review: "
    (match store orderId with
     | none => .error "Order not found"
     | some existingOrder =>
       if userType ≠ "customer" ∨ existingOrder.customerId ≠ userId then
         .error "Unauthorized: Only customers can add reviews to their orders"
       else if existingOrder.status ≠ "completed" then
         .error "Can only review completed orders"
       else
         match existingOrder.review with
         | some _ => .error "Review already exists for this order"
         | none =>
           updateOrder store now orderId
             { emptyUpdate with
               review := some
                 { rating := reviewData.rating
                   comment := some (reviewData.comment.getD "")
                   submittedAt := some now } }
             userId userType)

/-- The `metadata` bag a Stripe object carries for order payments. -/
structure PaymentMetadata where
  orderId : String
  customerId : String
  type : String
  deriving Repr, DecidableEq

/-- `event.data.object`: the Stripe session / payment intent. -/
structure StripeObject where
  id : String
  metadata : Option PaymentMetadata
  deriving Repr, DecidableEq

/-- A Stripe webhook event after signature verification. -/
structure StripeEvent where
  type : String
  object : StripeObject
  deriving Repr, DecidableEq

/-- `handleCheckoutSessionCompleted` of `src/routes/webhooks.js`: on
`order_payment` metadata, set payment status to `paid` then order status to
`confirmed`; every error is caught and swallowed, leaving whatever state the
completed writes produced. -/
def handleCheckoutSessionCompleted (session : StripeObject) (store : Store) (now : Date) :
    Store :=
  match session.metadata with
  | some md =>
    if md.type = "order_payment" then
      match updatePaymentStatus store now md.orderId "paid" md.customerId "client" with
      | .error _ => store
      | .ok (_, s1) =>
        match updateOrderStatus s1 now md.orderId "confirmed" md.customerId "client" with
        | .error _ => s1
        | .ok (_, s2) => s2
    else store
  | none => store

/-- `handlePaymentIntentSucceeded`: same body as the checkout-session handler. -/
def handlePaymentIntentSucceeded (paymentIntent : StripeObject) (store : Store) (now : Date) :
    Store :=
  match paymentIntent.metadata with
  | some md =>
    if md.type = "order_payment" then
      match updatePaymentStatus store now md.orderId "paid" md.customerId "client" with
      | .error _ => store
      | .ok (_, s1) =>
        match updateOrderStatus s1 now md.orderId "confirmed" md.customerId "client" with
        | .error _ => s1
        | .ok (_, s2) => s2
    else store
  | none => store

/-- `handlePaymentIntentFailed`: set payment status to `failed` only. -/
def handlePaymentIntentFailed (paymentIntent : StripeObject) (store : Store) (now : Date) :
    Store :=
  match paymentIntent.metadata with
  | some md =>
    if md.type = "order_payment" then
      match updatePaymentStatus store now md.orderId "failed" md.customerId "client" with
      | .error _ => store
      | .ok (_, s1) => s1
    else store
  | none => store

/-- The event dispatch switch of the `/stripe` webhook route. -/
def processWebhookEvent (event : StripeEvent) (store : Store) (now : Date) : Store :=
  if event.type = "checkout.session.completed" then
    handleCheckoutSessionCompleted event.object store now
  else if event.type = "payment_intent.succeeded" then
    handlePaymentIntentSucceeded event.object store now
  else if event.type = "payment_intent.payment_failed" then
    handlePaymentIntentFailed event.object store now
  else store

/-! ## Order creation (`createOrderDocument` / `OrderService.createOrder`)

The creation input mirrors the keys the Joi order schema examines. A field of
type `Option` is `none` when the key is absent from the request body. The ISO
date field is `Option (Option Date)`: `none` means absent, `some none` means
present but not parsable as an ISO date, `some (some d)` means it parses to
`d` (Joi's ISO parsing is a library primitive, treated as done). Passthrough
optional keys the claims never touch (`estimatedCompletion`, `actualStartTime`,
`actualEndTime`, `messages`, `review`, `cancellation`, `metadata`) are taken as
absent, so they receive their Joi defaults. -/

/-- Input shape for `serviceDetails.pricing`. -/
structure ServicePricingInput where
  type : Option String
  amount : Option ℚ
  currency : Option String
  description : Option String
  deriving Repr, DecidableEq

/-- Input shape for `serviceDetails`. -/
structure ServiceDetailsInput where
  title : Option String
  category : Option String
  description : Option String
  pricing : Option ServicePricingInput
  deriving Repr, DecidableEq

/-- Input shape for `bookingDetails`. -/
structure BookingDetailsInput where
  scheduledDate : Option (Option Date)
  scheduledTime : Option String
  duration : Option ℚ
  address : Option String
  notes : Option String
  specialInstructions : Option String
  deriving Repr, DecidableEq

/-- Input shape for the `pricing` breakdown. -/
structure OrderPricingInput where
  baseAmount : Option ℚ
  taxes : Option ℚ
  fees : Option ℚ
  discounts : Option ℚ
  totalAmount : Option ℚ
  currency : Option String
  deriving Repr, DecidableEq

/-- Input shape for a whole order-creation request body. -/
structure OrderInput where
  customerId : Option String
  providerId : Option String
  listingId : Option String
  serviceDetails : Option ServiceDetailsInput
  bookingDetails : Option BookingDetailsInput
  pricing : Option OrderPricingInput
  status : Option String
  paymentStatus : Option String
  orderNumber : Option String
  deriving Repr, DecidableEq

/-- A required-string Joi check (`string.empty` and `any.required` carry the
same custom message in the order schema). -/
def reqStr (v : Option String) (msg : String) : List String :=
  match v with
  | some s => if s = "" then [msg] else []
  | none => [msg]

/-- The `HH:MM` pattern of `bookingDetails.scheduledTime`. -/
def isHHMM (s : String) : Bool :=
  match s.toList with
  | [h, ':', m1, m2] =>
    h.isDigit && decide ('0' ≤ m1 ∧ m1 ≤ '5') && m2.isDigit
  | [h1, h2, ':', m1, m2] =>
    ((decide (h1 = '0' ∨ h1 = '1') && h2.isDigit) ||
      (decide (h1 = '2') && decide ('0' ≤ h2 ∧ h2 ≤ '3'))) &&
    decide ('0' ≤ m1 ∧ m1 ≤ '5') && m2.isDigit
  | _ => false

/-- Joi checks for `serviceDetails.pricing`. -/
def validateServicePricing (p : ServicePricingInput) : List String :=
  (match p.type with
   | some t =>
     if (["hourly", "fixed", "per_sqft"] : List String).contains t then []
     else ["serviceDetails.pricing.type must be one of hourly, fixed, per_sqft"]
   | none => ["serviceDetails.pricing.type is required"]) ++
  (match p.amount with
   | some a => if 0 < a then [] else ["serviceDetails.pricing.amount must be a positive number"]
   | none => ["serviceDetails.pricing.amount is required"])

/-- Joi checks for `serviceDetails`. -/
def validateServiceDetails (sd : ServiceDetailsInput) : List String :=
  reqStr sd.title "Service title is required" ++
  reqStr sd.category "Service category is required" ++
  (match sd.pricing with
   | some p => validateServicePricing p
   | none => ["serviceDetails.pricing is required"])

/-- Joi checks for `bookingDetails`. -/
def validateBookingDetails (b : BookingDetailsInput) : List String :=
  (match b.scheduledDate with
   | some (some _) => []
   | some none => ["Scheduled date must be a valid ISO date"]
   | none => ["Scheduled date is required"]) ++
  (match b.scheduledTime with
   | some t => if isHHMM t then [] else ["Scheduled time must be in HH:MM format"]
   | none => ["Scheduled time is required"]) ++
  (match b.duration with
   | some d => if 0 < d then [] else ["bookingDetails.duration must be a positive number"]
   | none => []) ++
  reqStr b.address "Service address is required"

/-- Joi checks for the `pricing` breakdown. -/
def validateOrderPricing (p : OrderPricingInput) : List String :=
  (match p.baseAmount with
   | some a => if 0 < a then [] else ["pricing.baseAmount must be a positive number"]
   | none => ["pricing.baseAmount is required"]) ++
  (match p.taxes with
   | some a => if 0 ≤ a then [] else ["pricing.taxes must be greater than or equal to 0"]
   | none => []) ++
  (match p.fees with
   | some a => if 0 ≤ a then [] else ["pricing.fees must be greater than or equal to 0"]
   | none => []) ++
  (match p.discounts with
   | some a => if 0 ≤ a then [] else ["pricing.discounts must be greater than or equal to 0"]
   | none => []) ++
  (match p.totalAmount with
   | some a => if 0 < a then [] else ["pricing.totalAmount must be a positive number"]
   | none => ["pricing.totalAmount is required"])

/-- All Joi violations of an order-creation input (`abortEarly: false` keeps
collecting instead of stopping at the first one). -/
def validateOrderInput (d : OrderInput) : List String :=
  reqStr d.customerId "Customer ID is required" ++
  reqStr d.providerId "Provider ID is required" ++
  reqStr d.listingId "Listing ID is required" ++
  (match d.serviceDetails with
   | some sd => validateServiceDetails sd
   | none => ["serviceDetails is required"]) ++
  (match d.bookingDetails with
   | some b => validateBookingDetails b
   | none => ["bookingDetails is required"]) ++
  (match d.pricing with
   | some p => validateOrderPricing p
   | none => ["pricing is required"]) ++
  (match d.status with
   | some s =>
     if ORDER_STATUSES.contains s then []
     else ["status must be one of pending, confirmed, in_progress, completed, cancelled, refunded"]
   | none => []) ++
  (match d.paymentStatus with
   | some s =>
     if PAYMENT_STATUSES.contains s then []
     else ["paymentStatus must be one of pending, paid, failed, refunded, partially_refunded"]
   | none => []) ++
  (match d.orderNumber with
   | some n => if n = "" then ["orderNumber is not allowed to be empty"] else []
   | none => [])

/-- One base-36 digit as `Number.prototype.toString(36)` prints it. -/
def base36Char (d : Fin 36) : Char :=
  if d.val < 10 then Char.ofNat (48 + d.val) else Char.ofNat (87 + d.val)

/-- `Math.random().toString(36).substr(2, 5).toUpperCase()`, with the random
draw represented by its base-36 fraction digits (trailing zeros stripped, the
way `toString` prints them; the list is empty when the draw is `0`). -/
def randSuffix (digits : List (Fin 36)) : String :=
  String.mk (((digits.take 5).map base36Char).map Char.toUpper)

/-- The generated order number `PNL-<Date.now()>-<random suffix>`. -/
def generateOrderNumber (nowMs : Date) (digits : List (Fin 36)) : String :=
  "PNL-" ++ toString nowMs ++ "-" ++ randSuffix digits

/-- `createOrderDocument` of `src/models/Order.js`: validate (collecting every
violation), generate the order number when `!value.orderNumber`, stamp
`createdAt` / `updatedAt`, apply the Joi defaults. -/
def createOrderDocument (d : OrderInput) (nowMs : Date) (randDigits : List (Fin 36)) :
    Except String Order :=
  if validateOrderInput d = [] then
    let sd := d.serviceDetails.getD ⟨none, none, none, none⟩
    let sp := sd.pricing.getD ⟨none, none, none, none⟩
    let b := d.bookingDetails.getD ⟨none, none, none, none, none, none⟩
    let p := d.pricing.getD ⟨none, none, none, none, none, none⟩
    .ok
      { customerId := d.customerId.getD ""
        providerId := d.providerId.getD ""
        listingId := d.listingId.getD ""
        serviceDetails :=
          { title := sd.title.getD ""
            category := sd.category.getD ""
            description := sd.description.getD ""
            pricing :=
              { type := sp.type.getD ""
                amount := sp.amount.getD 0
                currency := sp.currency.getD "USD"
                description := sp.description.getD "" } }
        bookingDetails :=
          { scheduledDate := (b.scheduledDate.getD none).getD 0
            scheduledTime := b.scheduledTime.getD ""
            duration := b.duration
            address := b.address.getD ""
            notes := b.notes.getD ""
            specialInstructions := b.specialInstructions.getD "" }
        pricing :=
          { baseAmount := p.baseAmount.getD 0
            taxes := p.taxes.getD 0
            fees := p.fees.getD 0
            discounts := p.discounts.getD 0
            totalAmount := p.totalAmount.getD 0
            currency := p.currency.getD "USD" }
        status := d.status.getD "pending"
        paymentStatus := d.paymentStatus.getD "pending"
        orderNumber :=
          match d.orderNumber with
          | some n => if n = "" then generateOrderNumber nowMs randDigits else n
          | none => generateOrderNumber nowMs randDigits
        actualStartTime := none
        actualEndTime := none
        messages := []
        review := none
        cancellation := none
        createdAt := nowMs
        updatedAt := nowMs }
  else
    .error ("Validation error: " ++ String.intercalate ", " (validateOrderInput d))

/-- `OrderService.createOrder`: attach the caller's customer id, validate and
build the document (the Firestore `add` assigns a fresh document id, which is
not part of the document itself). -/
def createOrder (orderData : OrderInput) (customerId : String) (nowMs : Date)
    (randDigits : List (Fin 36)) : Except String Order :=
  wrapError "Failed to create order: "
    (createOrderDocument { orderData with customerId := some customerId } nowMs randDigits)

/-! ## Payment session creation (`OrderService.createPaymentSession`) -/

/-- The checkout-session request the order service hands to
`stripeService.createOrderCheckoutSession` (the success / cancel URLs are
derived from the `FRONTEND_URL` environment variable and carry no order data
beyond the order id, so they are not modelled). -/
structure CheckoutSessionData where
  currency : String
  productName : String
  productDescription : String
  unitAmount : Int
  quantity : Nat
  mode : String
  metadata : PaymentMetadata
  customerEmail : Option String
  allowPromotionCodes : Bool
  deriving Repr, DecidableEq

/-- A checkout session minted by the gateway. -/
structure StripeSession where
  id : String
  url : String
  deriving Repr, DecidableEq

/-- The value `createPaymentSession` returns to the route. -/
structure PaymentSessionResult where
  sessionId : String
  url : String
  orderId : String
  amount : ℚ
  currency : String
  deriving Repr, DecidableEq

/-- The `sessionData` literal built inside `createPaymentSession`. The order
schema defines no `customerEmail` key, so `order.customerEmail || undefined`
is always absent. -/
def buildOrderSessionData (order : Order) (orderId customerId : String) :
    CheckoutSessionData :=
  { currency := jsOrStr (some order.pricing.currency) "usd"
    productName := order.serviceDetails.title
    productDescription :=
      jsOrStr (some order.serviceDetails.description)
        ("Service: " ++ order.serviceDetails.category)
    unitAmount := jsRound (order.pricing.totalAmount * 100)
    quantity := 1
    mode := "payment"
    metadata := { orderId := orderId, customerId := customerId, type := "order_payment" }
    customerEmail := none
    allowPromotionCodes := false }

/-- `OrderService.createPaymentSession`: ownership check, payable-state checks,
then mint a session through the gateway collaborator. -/
def createPaymentSession (store : Store) (orderId customerId : String)
    (gateway : CheckoutSessionData → Except String StripeSession) :
    Except String PaymentSessionResult :=
  wrapError "Failed to create payment session: "
    (match store orderId with
     | none => .error "Order not found"
     | some order =>
       if order.customerId ≠ customerId then
         .error "Unauthorized: You can only pay for your own orders"
       else if order.status ≠ "pending" ∧ order.status ≠ "confirmed" then
         .error "Order is not in a payable state"
       else if order.paymentStatus = "paid" then
         .error "Order has already been paid"
       else
         match gateway (buildOrderSessionData order orderId customerId) with
         | .error e => .error e
         | .ok session =>
           .ok { sessionId := session.id
                 url := session.url
                 orderId := orderId
                 amount := order.pricing.totalAmount
                 currency := jsOrStr (some order.pricing.currency) "usd" })

/-! ## Provider plan engine
(`src/models/ProviderPlan.js`, `src/services/providerPlanService.js`) -/

/-- The feature bundle of a plan tier. -/
structure PlanFeatures where
  maxListings : Int
  maxImages : Int
  prioritySupport : Bool
  analytics : Bool
  customDomain : Bool
  apiAccess : Bool
  whiteLabel : Bool
  deriving Repr, DecidableEq

/-- Price and day count of one billing period in the static catalog. -/
structure PlanTier where
  price : ℚ
  days : Int
  deriving Repr, DecidableEq

/-- One named entry of `PLAN_CONFIG`. -/
structure PlanEntry where
  name : String
  monthly : PlanTier
  yearly : PlanTier
  features : PlanFeatures
  deriving Repr, DecidableEq

/-- The static plan catalog `PLAN_CONFIG`, keyed by plan name. -/
def PLAN_CONFIG : String → Option PlanEntry := fun planName =>
  if planName = "free" then
    some { name := "Free", monthly := ⟨0, 30⟩, yearly := ⟨0, 365⟩
           features := ⟨5, 10, false, false, false, false, false⟩ }
  else if planName = "basic" then
    some { name := "Basic", monthly := ⟨mkRat 2999 100, 30⟩, yearly := ⟨mkRat 29999 100, 365⟩
           features := ⟨25, 50, true, true, false, false, false⟩ }
  else if planName = "premium" then
    some { name := "Premium", monthly := ⟨mkRat 5999 100, 30⟩, yearly := ⟨mkRat 59999 100, 365⟩
           features := ⟨100, 200, true, true, true, true, false⟩ }
  else if planName = "enterprise" then
    some { name := "Enterprise", monthly := ⟨mkRat 9999 100, 30⟩, yearly := ⟨mkRat 99999 100, 365⟩
           features := ⟨-1, -1, true, true, true, true, true⟩ }
  else none

/-- `calculateEndDate(planType, startDate)`: the source reads
`PLAN_CONFIG[planType]?.monthly?.days || 30` — note that `PLAN_CONFIG` is keyed
by plan NAME, not plan type, and that `|| 30` also replaces a zero day count
(JS falsiness); day addition via `setDate` becomes millisecond arithmetic. -/
def calculateEndDate (planType : String) (startDate : Date) : Date :=
  let days : Int :=
    match PLAN_CONFIG planType with
    | some c => if c.monthly.days = 0 then 30 else c.monthly.days
    | none => 30
  startDate + days * msPerDay

/-- `Math.ceil(a / b)` for integers with `b > 0`. -/
def ceilDiv (a b : Int) : Int := -(Int.fdiv (-a) b)

/-- `calculateDaysRemaining(endDate)` evaluated at time `now`. -/
def calculateDaysRemaining (endDate : Date) (now : Date) : Int :=
  max 0 (ceilDiv (endDate - now) msPerDay)

/-- `getPlanPrice(planName, planType)`: `PLAN_CONFIG[planName]?.[planType]?.price || 0`. -/
def getPlanPrice (planName planType : String) : ℚ :=
  match PLAN_CONFIG planName with
  | some c =>
    if planType = "monthly" then c.monthly.price
    else if planType = "yearly" then c.yearly.price
    else 0
  | none => 0

/-- `getPlanFeatures(planName)`: falls back to the free tier's features. -/
def getPlanFeatures (planName : String) : PlanFeatures :=
  match PLAN_CONFIG planName with
  | some c => c.features
  | none => ⟨5, 10, false, false, false, false, false⟩

/-- The fixed plan ordering used by `canUpgrade`. -/
def planHierarchy : List String := ["free", "basic", "premium", "enterprise"]

/-- `Array.prototype.indexOf` on the hierarchy (`-1` when absent). -/
def planIndex (p : String) : Int :=
  match planHierarchy.findIdx? (· = p) with
  | some i => (i : Int)
  | none => -1

/-- `canUpgrade(currentPlan, newPlan)`: strictly higher in the hierarchy. -/
def canUpgrade (currentPlan newPlan : String) : Bool :=
  planIndex currentPlan < planIndex newPlan

/-- `getUpgradePrice`: non-negative price delta for the chosen period. -/
def getUpgradePrice (currentPlan newPlan planType : String) : ℚ :=
  max 0 (getPlanPrice newPlan planType - getPlanPrice currentPlan planType)

/-- A plan document as stored in the `providerPlans` collection. -/
structure ProviderPlan where
  providerId : String
  planName : String
  planType : String
  status : String
  startDate : Date
  endDate : Date
  daysRemaining : Int
  price : ℚ
  currency : String
  stripeSubscriptionId : Option String
  stripeCustomerId : Option String
  stripePaymentIntentId : Option String
  features : PlanFeatures
  autoRenew : Bool
  createdAt : Date
  updatedAt : Date
  deriving Repr, DecidableEq

/-- The data object handed to `createOrUpdateProviderPlan`. Besides the schema
fields it can carry the keys `upgradePrice`, `previousPlan` and `renewedAt`,
which `providerPlanSchema` does NOT declare — Joi validates with its default
`allowUnknown: false`, so their presence is a validation error. -/
structure PlanWriteData where
  providerId : String
  planName : String
  planType : String
  status : String
  startDate : Date
  endDate : Date
  daysRemaining : Int
  price : ℚ
  currency : String
  features : PlanFeatures
  autoRenew : Bool
  stripeSubscriptionId : Option String
  stripeCustomerId : Option String
  stripePaymentIntentId : Option String
  upgradePrice : Option ℚ
  previousPlan : Option String
  renewedAt : Option Date
  deriving Repr, DecidableEq

/-- The first `providerPlanSchema` violation (Joi default `abortEarly`),
`none` when the object validates. -/
def validatePlanWrite (d : PlanWriteData) : Option String :=
  if d.providerId = "" then
    some "providerId is not allowed to be empty"
  else if ¬ (["free", "basic", "premium", "enterprise"] : List String).contains d.planName then
    some "planName must be one of free, basic, premium, enterprise"
  else if ¬ (["monthly", "yearly"] : List String).contains d.planType then
    some "planType must be one of monthly, yearly"
  else if ¬ (["active", "expired", "cancelled", "pending"] : List String).contains d.status then
    some "status must be one of active, expired, cancelled, pending"
  else if d.daysRemaining < 0 then
    some "daysRemaining must be greater than or equal to 0"
  else if d.price < 0 then
    some "price must be greater than or equal to 0"
  else if d.features.maxListings < 0 then
    some "features.maxListings must be greater than or equal to 0"
  else if d.features.maxImages < 0 then
    some "features.maxImages must be greater than or equal to 0"
  else if d.upgradePrice.isSome then
    some "upgradePrice is not allowed"
  else if d.previousPlan.isSome then
    some "previousPlan is not allowed"
  else if d.renewedAt.isSome then
    some "renewedAt is not allowed"
  else none

/-- A `{success, error}` result of the plan service. -/
structure PlanOpResult where
  success : Bool
  error : Option String
  deriving Repr, DecidableEq

/-- The `providerPlans` collection, keyed by provider id. -/
abbrev PlanStore := String → Option ProviderPlan

/-- Write one plan document. -/
def PlanStore.set (s : PlanStore) (id : String) (p : ProviderPlan) : PlanStore :=
  fun k => if k = id then some p else s k

/-- `createOrUpdateProviderPlan`: validate, then set or update the document
(an update keeps the original `createdAt`). -/
def createOrUpdateProviderPlan (store : PlanStore) (now : Date) (providerId : String)
    (d : PlanWriteData) : PlanOpResult × PlanStore :=
  match validatePlanWrite d with
  | some e => ({ success := false, error := some e }, store)
  | none =>
    let createdAt :=
      match store providerId with
      | some existing => existing.createdAt
      | none => now
    let plan : ProviderPlan :=
      { providerId := d.providerId
        planName := d.planName
        planType := d.planType
        status := d.status
        startDate := d.startDate
        endDate := d.endDate
        daysRemaining := d.daysRemaining
        price := d.price
        currency := d.currency
        stripeSubscriptionId := d.stripeSubscriptionId
        stripeCustomerId := d.stripeCustomerId
        stripePaymentIntentId := d.stripePaymentIntentId
        features := d.features
        autoRenew := d.autoRenew
        createdAt := createdAt
        updatedAt := now }
    ({ success := true, error := none }, store.set providerId plan)

/-- `getProviderPlan`: read, recompute `daysRemaining`, write it back when it
changed (the returned object receives the fresh count but not the fresh
`updatedAt`, exactly as the source mutates only `planData.daysRemaining`). -/
def getProviderPlan (store : PlanStore) (now : Date) (providerId : String) :
    Option ProviderPlan × PlanStore :=
  match store providerId with
  | none => (none, store)
  | some planData =>
    let dr := calculateDaysRemaining planData.endDate now
    if dr ≠ planData.daysRemaining then
      (some { planData with daysRemaining := dr },
       store.set providerId { planData with daysRemaining := dr, updatedAt := now })
    else (some planData, store)

/-- The optional Stripe correlation ids passed to `activateProviderPlan`. -/
structure PaymentData where
  stripeSubscriptionId : Option String
  stripeCustomerId : Option String
  stripePaymentIntentId : Option String
  deriving Repr, DecidableEq

/-- `activateProviderPlan`: compute `endDate` / `daysRemaining`, snapshot price
and features, write the plan document (the denormalized summary written onto
the provider's user record repeats `endDate` / `daysRemaining` and is not
modelled separately). -/
def activateProviderPlan (store : PlanStore) (now : Date)
    (providerId planName planType : String) (paymentData : PaymentData) :
    PlanOpResult × PlanStore :=
  let endDate := calculateEndDate planType now
  let daysRemaining := calculateDaysRemaining endDate now
  createOrUpdateProviderPlan store now providerId
    { providerId := providerId
      planName := planName
      planType := planType
      status := "active"
      startDate := now
      endDate := endDate
      daysRemaining := daysRemaining
      price := getPlanPrice planName planType
      currency := "usd"
      features := getPlanFeatures planName
      autoRenew := planType = "monthly"
      stripeSubscriptionId := paymentData.stripeSubscriptionId
      stripeCustomerId := paymentData.stripeCustomerId
      stripePaymentIntentId := paymentData.stripePaymentIntentId
      upgradePrice := none
      previousPlan := none
      renewedAt := none }

/-- `upgradeProviderPlan`: load the current plan, require a strictly higher
plan, stack the remaining days onto the new period, then write through
`createOrUpdateProviderPlan` (the written object carries the extra
`upgradePrice` / `previousPlan` keys). -/
def upgradeProviderPlan (store : PlanStore) (now : Date)
    (providerId newPlanName newPlanType : String) : PlanOpResult × PlanStore :=
  match getProviderPlan store now providerId with
  | (none, s1) => ({ success := false, error := some "Current plan not found" }, s1)
  | (some currentPlanData, s1) =>
    if ¬ canUpgrade currentPlanData.planName newPlanName then
      ({ success := false, error := some "Cannot downgrade plan" }, s1)
    else
      let period : Int := if newPlanType = "monthly" then 30 else 365
      let remainingDays := currentPlanData.daysRemaining
      createOrUpdateProviderPlan s1 now providerId
        { providerId := providerId
          planName := newPlanName
          planType := newPlanType
          status := "active"
          startDate := now
          endDate := now + (remainingDays + period) * msPerDay
          daysRemaining := remainingDays + period
          price := getPlanPrice newPlanName newPlanType
          currency := "usd"
          features := getPlanFeatures newPlanName
          autoRenew := newPlanType = "monthly"
          stripeSubscriptionId := none
          stripeCustomerId := none
          stripePaymentIntentId := none
          upgradePrice := some (getUpgradePrice currentPlanData.planName newPlanName newPlanType)
          previousPlan := some currentPlanData.planName
          renewedAt := none }

/-! ## Feedback service (`src/services/feedbackService.js`) -/

/-- The slice of a user document the feedback service reads and writes. -/
structure UserDoc where
  fullName : Option String
  averageRating : ℚ
  totalReviews : Int
  deriving Repr, DecidableEq

/-- The slice of a listing document the feedback service reads. -/
structure ListingDoc where
  title : Option String
  deriving Repr, DecidableEq

/-- A document of the `feedback` collection. -/
structure FeedbackDoc where
  orderId : String
  clientId : String
  providerId : String
  serviceId : Option String
  rating : ℚ
  comment : String
  status : String
  serviceName : String
  providerName : String
  clientName : String
  createdAt : Date
  updatedAt : Date
  deriving Repr, DecidableEq

/-- The body of a feedback submission. -/
structure FeedbackInput where
  orderId : String
  clientId : String
  providerId : String
  serviceId : Option String
  rating : ℚ
  comment : Option String
  deriving Repr, DecidableEq

/-- The collections the feedback service touches. -/
structure FeedbackState where
  orders : Store
  users : String → Option UserDoc
  listings : String → Option ListingDoc
  feedbacks : List FeedbackDoc

/-- A `{success, error}` result of the feedback service. -/
structure FeedbackResult where
  success : Bool
  error : Option String
  deriving Repr, DecidableEq

/-- Write one user document. -/
def setUser (us : String → Option UserDoc) (id : String) (u : UserDoc) :
    String → Option UserDoc :=
  fun k => if k = id then some u else us k

/-- JS truthiness on an optional string: `""` counts as absent. -/
def jsStrOrNull (a : Option String) : Option String :=
  match a with
  | some s => if s = "" then none else some s
  | none => none

/-- `updateProviderRating`: recompute the running average over approved
feedback (`Math.round(avg * 10) / 10`); a missing user document makes the
Firestore update throw, which the local catch swallows. -/
def updateProviderRating (st : FeedbackState) (providerId : String) : FeedbackState :=
  let fbs := st.feedbacks.filter (fun f => f.providerId == providerId && f.status == "approved")
  match st.users providerId with
  | none => st
  | some u =>
    if fbs.length = 0 then
      { st with users := setUser st.users providerId { u with averageRating := 0, totalReviews := 0 } }
    else
      let totalRating : ℚ := (fbs.map FeedbackDoc.rating).sum
      let averageRating : ℚ := (jsRound (totalRating / (fbs.length : ℚ) * 10) : ℚ) / 10
      { st with users := setUser st.users providerId { u with averageRating := averageRating, totalReviews := fbs.length } }

/-- `createFeedback`: ownership, paid-order and at-most-once guards, then the
auto-approved document is appended and the provider's rating recomputed. The
order schema declares neither `clientId` nor `serviceName`, so
`order.clientId || order.customerId` reads `customerId` and
`order.serviceName` contributes nothing to the fallback chain. -/
def createFeedback (st : FeedbackState) (now : Date) (fd : FeedbackInput) :
    FeedbackResult × FeedbackState :=
  match st.orders fd.orderId with
  | none => ({ success := false, error := some "Order not found" }, st)
  | some order =>
    if order.customerId ≠ fd.clientId then
      ({ success := false, error := some "You can only review your own orders" }, st)
    else if order.paymentStatus ≠ "paid" then
      ({ success := false, error := some "You can only review paid orders" }, st)
    else if (st.feedbacks.filter (fun f => f.orderId == fd.orderId)).length ≠ 0 then
      ({ success := false, error := some "You have already reviewed this order" }, st)
    else
      match st.users fd.clientId, st.users fd.providerId with
      | some client, some provider =>
        let service := (jsStrOrNull fd.serviceId).bind st.listings
        let doc : FeedbackDoc :=
          { orderId := fd.orderId
            clientId := fd.clientId
            providerId := fd.providerId
            serviceId := jsStrOrNull fd.serviceId
            rating := fd.rating
            comment := fd.comment.getD ""
            status := "approved"
            serviceName := jsOrStr (service.bind ListingDoc.title) "Service"
            providerName := jsOrStr provider.fullName "Provider"
            clientName := jsOrStr client.fullName "Client"
            createdAt := now
            updatedAt := now }
        let st1 := { st with feedbacks := st.feedbacks ++ [doc] }
        ({ success := true, error := none }, updateProviderRating st1 fd.providerId)
      | _, _ => ({ success := false, error := some "Invalid client or provider" }, st)

/-! ## Concrete fixtures used to instantiate the theorems -/

/-- A pending, unpaid order owned by customer `c1` with provider `p1`. -/
def exOrder : Order :=
  { customerId := "c1", providerId := "p1", listingId := "l1"
    serviceDetails :=
      { title := "Deep clean", category := "cleaning", description := ""
        pricing := { type := "fixed", amount := 120, currency := "USD", description := "" } }
    bookingDetails :=
      { scheduledDate := 1700000000000, scheduledTime := "10:00", duration := none
        address := "1 Main St", notes := "", specialInstructions := "" }
    pricing :=
      { baseAmount := 100, taxes := 10, fees := 10, discounts := 0
        totalAmount := 120, currency := "USD" }
    status := "pending", paymentStatus := "pending", orderNumber := "PNL-1-ABCDE"
    actualStartTime := none, actualEndTime := none, messages := [], review := none
    cancellation := none, createdAt := 1, updatedAt := 1 }

/-- The same order in `completed` status, not yet reviewed. -/
def exCompletedOrder : Order := { exOrder with status := "completed" }

/-- The same order already `cancelled`. -/
def exCancelledOrder : Order := { exOrder with status := "cancelled" }

/-- A one-order collection holding `exOrder` under id `o1`. -/
def exStore : Store := fun k => if k = "o1" then some exOrder else none

/-- A one-order collection holding `exCompletedOrder` under id `o2`. -/
def exStoreCompleted : Store := fun k => if k = "o2" then some exCompletedOrder else none

/-- A one-order collection holding `exCancelledOrder` under id `o3`. -/
def exStoreCancelled : Store := fun k => if k = "o3" then some exCancelledOrder else none

/-- The same order in `confirmed` status. -/
def exConfirmedOrder : Order := { exOrder with status := "confirmed" }

/-- A one-order collection holding `exConfirmedOrder` under id `o1`. -/
def exStoreConfirmed : Store := fun k => if k = "o1" then some exConfirmedOrder else none

/-- A cancellation request body with just a reason. -/
def exCancellation : CancellationData := ⟨some "changed my mind", none, none, none⟩

/-- A five-star review body. -/
def exReview : ReviewData := ⟨some 5, some "great", none⟩

/-- A gateway that mints a fixed session. -/
def exGateway : CheckoutSessionData → Except String StripeSession :=
  fun _ => .ok ⟨"cs_test_1", "https://checkout.example/cs_test_1"⟩

/-- An active basic monthly plan for provider `p1` with 10 days left at time 0. -/
def exPlan : ProviderPlan :=
  { providerId := "p1", planName := "basic", planType := "monthly", status := "active"
    startDate := 0, endDate := 10 * msPerDay, daysRemaining := 10, price := mkRat 2999 100
    currency := "usd", stripeSubscriptionId := none, stripeCustomerId := none
    stripePaymentIntentId := none, features := ⟨25, 50, true, true, false, false, false⟩
    autoRenew := true, createdAt := 0, updatedAt := 0 }

/-- A one-plan collection holding `exPlan` under provider id `p1`. -/
def exPlanStore : PlanStore := fun k => if k = "p1" then some exPlan else none

/-- Five base-36 fraction digits (the draw `0.abcde…` in base 36). -/
def exDigits : List (Fin 36) := [10, 11, 12, 13, 14]

/-- A fully valid order-creation body that also supplies `status`. -/
def exValidInputWithStatus : OrderInput :=
  { customerId := none, providerId := some "p1", listingId := some "l1"
    serviceDetails := some
      { title := some "Deep clean", category := some "cleaning", description := none
        pricing := some
          { type := some "fixed", amount := some 120, currency := none, description := none } }
    bookingDetails := some
      { scheduledDate := some (some 1700000000000), scheduledTime := some "10:00"
        duration := none, address := some "1 Main St", notes := none
        specialInstructions := none }
    pricing := some
      { baseAmount := some 100, taxes := none, fees := none, discounts := none
        totalAmount := some 120, currency := none }
    status := some "completed", paymentStatus := none, orderNumber := none }

/-- The same body without `status` / `paymentStatus` / `orderNumber`. -/
def exValidInput : OrderInput := { exValidInputWithStatus with status := none }

/-- A body violating two distinct fields: no provider id, non-positive base amount. -/
def exInvalidInput : OrderInput :=
  { exValidInput with
    providerId := none
    pricing := some
      { baseAmount := some (-5), taxes := none, fees := none, discounts := none
        totalAmount := some 120, currency := none } }

/-- A feedback-service state: order `o1` is paid but still `pending`, client `c1`
and provider `p1` exist, and no feedback has been submitted yet. -/
def exFeedbackState : FeedbackState :=
  { orders := fun k => if k = "o1" then some { exOrder with paymentStatus := "paid" } else none
    users := fun k => if k = "c1" ∨ k = "p1" then some ⟨some "Janet", 0, 0⟩ else none
    listings := fun _ => none
    feedbacks := [] }

/-- A feedback submission by `c1` for order `o1`. -/
def exFeedbackInput : FeedbackInput := ⟨"o1", "c1", "p1", none, 5, some "great"⟩

/-- Abbreviation for the order value `cancelOrder` writes on success: status
`cancelled` plus the cancellation record stamped with the caller's role — and
the forked schema's injected defaults (`paymentStatus: 'pending'`,
`messages: []`) over the stored values. -/
def cancelledWith (o : Order) (cd : CancellationData) (ut : String) (now : Date) : Order :=
  { o with
    status := "cancelled"
    paymentStatus := "pending"
    messages := []
    cancellation := some { cd with cancelledBy := some ut, cancelledAt := some now }
    updatedAt := now }

/-- Abbreviation for the order value `addReview` writes on success: the review
object built from the request body, submitted now — and the forked schema's
injected defaults, which in particular reset the order's status from
`completed` back to `pending`. -/
def reviewedWith (o : Order) (rd : ReviewData) (now : Date) : Order :=
  { o with
    status := "pending"
    paymentStatus := "pending"
    messages := []
    review := some ⟨rd.rating, some (rd.comment.getD ""), some now⟩
    updatedAt := now }

/-- The update object `addReview` sends. -/
def reviewUpdate (rd : ReviewData) (now : Date) : UpdateData :=
  { emptyUpdate with review := some ⟨rd.rating, some (rd.comment.getD ""), some now⟩ }

/-- The feedback document `createFeedback` writes when every guard passes. -/
def feedbackDocOf (st : FeedbackState) (now : Date) (fd : FeedbackInput)
    (client provider : UserDoc) : FeedbackDoc :=
  { orderId := fd.orderId
    clientId := fd.clientId
    providerId := fd.providerId
    serviceId := jsStrOrNull fd.serviceId
    rating := fd.rating
    comment := fd.comment.getD ""
    status := "approved"
    serviceName :=
      jsOrStr (((jsStrOrNull fd.serviceId).bind st.listings).bind ListingDoc.title) "Service"
    providerName := jsOrStr provider.fullName "Provider"
    clientName := jsOrStr client.fullName "Client"
    createdAt := now
    updatedAt := now }

/-- The order `createOrder exValidInput "c1" 5 exDigits` produces: Joi defaults
applied, timestamps at 5, generated order number. -/
def exCreatedOrder : Order :=
  { customerId := "c1", providerId := "p1", listingId := "l1"
    serviceDetails :=
      { title := "Deep clean", category := "cleaning", description := ""
        pricing := { type := "fixed", amount := 120, currency := "USD", description := "" } }
    bookingDetails :=
      { scheduledDate := 1700000000000, scheduledTime := "10:00", duration := none
        address := "1 Main St", notes := "", specialInstructions := "" }
    pricing :=
      { baseAmount := 100, taxes := 0, fees := 0, discounts := 0
        totalAmount := 120, currency := "USD" }
    status := "pending", paymentStatus := "pending", orderNumber := "PNL-5-ABCDE"
    actualStartTime := none, actualEndTime := none, messages := [], review := none
    cancellation := none, createdAt := 5, updatedAt := 5 }

/-! ## Helper lemmas -/

theorem Store.set_same (s : Store) (id : String) (o : Order) : (s.set id o) id = some o := by
  simp [Store.set]

theorem Store.set_ne (s : Store) (id k : String) (o : Order) (h : k ≠ id) :
    (s.set id o) k = s k := by
  simp [Store.set, h]

theorem updateOrder_ok (s : Store) (now : Date) (oid : String) (u : UpdateData)
    (uid ut : String) (o : Order) (h : s oid = some o)
    (hp1 : ¬ ((ut = "customer" ∨ ut = "client") ∧ o.customerId ≠ uid))
    (hp2 : ¬ (ut = "provider" ∧ o.providerId ≠ uid))
    (hval : validateUpdateData u = []) :
    updateOrder s now oid u uid ut
      = .ok (applyUpdate o u now, s.set oid (applyUpdate o u now)) := by
  unfold updateOrder
  rw [h]
  simp only [hp1, hp2, hval, if_true, if_false, if_neg, if_pos]

theorem updateOrder_notFound (s : Store) (now : Date) (oid : String) (u : UpdateData)
    (uid ut : String) (h : s oid = none) :
    updateOrder s now oid u uid ut = .error "Failed to update order: Order not found" := by
  unfold updateOrder
  rw [h]

theorem updatePaymentStatus_ok (s : Store) (now : Date) (oid ps : String) (uid ut : String)
    (o : Order) (h : s oid = some o) (hps : PAYMENT_STATUSES.contains ps = true)
    (hp1 : ¬ ((ut = "customer" ∨ ut = "client") ∧ o.customerId ≠ uid))
    (hp2 : ¬ (ut = "provider" ∧ o.providerId ≠ uid)) :
    updatePaymentStatus s now oid ps uid ut
      = .ok ({ o with paymentStatus := ps, status := "pending", messages := [], updatedAt := now },
             s.set oid
               { o with paymentStatus := ps, status := "pending", messages := [], updatedAt := now }) := by
  have hval : validateUpdateData { emptyUpdate with paymentStatus := some ps } = [] := by
    simp only [validateUpdateData, emptyUpdate, hps, if_true, List.append_nil, List.nil_append]
  unfold updatePaymentStatus
  rw [if_pos hps, updateOrder_ok s now oid _ uid ut o h hp1 hp2 hval]
  rfl

theorem updateOrderStatus_confirmed_ok (s : Store) (now : Date) (oid : String) (uid ut : String)
    (o : Order) (h : s oid = some o)
    (hp1 : ¬ ((ut = "customer" ∨ ut = "client") ∧ o.customerId ≠ uid))
    (hp2 : ¬ (ut = "provider" ∧ o.providerId ≠ uid)) :
    updateOrderStatus s now oid "confirmed" uid ut
      = .ok ({ o with status := "confirmed", paymentStatus := "pending", messages := [], updatedAt := now },
             s.set oid
               { o with status := "confirmed", paymentStatus := "pending", messages := [], updatedAt := now }) := by
  have hval : validateUpdateData
      { emptyUpdate with status := some "confirmed", actualStartTime := none, actualEndTime := none }
        = [] := by decide
  unfold updateOrderStatus
  rw [if_pos (by decide : ORDER_STATUSES.contains "confirmed" = true)]
  simp only [show ("confirmed" : String) = "in_progress" ↔ False by simp,
    show ("confirmed" : String) = "completed" ↔ False by simp, if_false]
  rw [updateOrder_ok s now oid _ uid ut o h hp1 hp2 hval]
  rfl

theorem Store.set_set (s : Store) (id : String) (o1 o2 : Order) :
    (s.set id o1).set id o2 = s.set id o2 := by
  funext k
  by_cases hk : k = id <;> simp [Store.set, hk]

theorem updateOrder_err_customer (s : Store) (now : Date) (oid : String) (u : UpdateData)
    (uid ut : String) (o : Order) (h : s oid = some o)
    (hcl : ut = "customer" ∨ ut = "client") (hne : o.customerId ≠ uid) :
    updateOrder s now oid u uid ut
      = .error "Failed to update order: Unauthorized: You can only update your own orders" := by
  have hcond : (ut = "customer" ∨ ut = "client") ∧ o.customerId ≠ uid := ⟨hcl, hne⟩
  unfold updateOrder
  rw [h]
  simp [hcond]

theorem updatePaymentStatus_notFound (s : Store) (now : Date) (oid ps uid ut : String)
    (h : s oid = none) (hps : PAYMENT_STATUSES.contains ps = true) :
    updatePaymentStatus s now oid ps uid ut
      = .error "Failed to update payment status: Failed to update order: Order not found" := by
  unfold updatePaymentStatus
  rw [if_pos hps, updateOrder_notFound s now oid _ uid ut h]
  rfl

theorem updatePaymentStatus_err_customer (s : Store) (now : Date) (oid ps uid : String)
    (o : Order) (h : s oid = some o) (hps : PAYMENT_STATUSES.contains ps = true)
    (hne : o.customerId ≠ uid) :
    updatePaymentStatus s now oid ps uid "client"
      = .error "Failed to update payment status: Failed to update order: Unauthorized: You can only update your own orders" := by
  unfold updatePaymentStatus
  rw [if_pos hps, updateOrder_err_customer s now oid _ uid "client" o h (Or.inr rfl) hne]
  rfl

/-- The success-path webhook handler on an existing order of the matching
customer. The first write sets `paymentStatus = paid`, but the second write
(`status = confirmed`) re-injects the forked schema's `paymentStatus` default,
so the final document is `confirmed` / `pending` — the `paid` value survives
only between the two writes. -/
theorem handleCheckout_found (eid oid cid : String) (s : Store) (now : Date) (o : Order)
    (h : s oid = some o) (hc : o.customerId = cid) :
    handleCheckoutSessionCompleted ⟨eid, some ⟨oid, cid, "order_payment"⟩⟩ s now
      = s.set oid
          { o with status := "confirmed", paymentStatus := "pending", messages := [], updatedAt := now } := by
  have hp1 : ¬ ((("client" : String) = "customer" ∨ ("client" : String) = "client")
      ∧ o.customerId ≠ cid) := by simp [hc]
  have hp2 : ¬ (("client" : String) = "provider" ∧ o.providerId ≠ cid) := by simp
  unfold handleCheckoutSessionCompleted
  simp only [if_true]
  rw [updatePaymentStatus_ok s now oid "paid" cid "client" o h (by decide) hp1 hp2]
  dsimp only
  rw [updateOrderStatus_confirmed_ok
    (s.set oid { o with paymentStatus := "paid", status := "pending", messages := [], updatedAt := now })
    now oid cid "client"
    { o with paymentStatus := "paid", status := "pending", messages := [], updatedAt := now }
    (Store.set_same s oid _) hp1 hp2]
  dsimp only
  rw [Store.set_set]

/-- The success-path webhook handler on a missing order leaves the store as is. -/
theorem handleCheckout_notFound (eid oid cid : String) (s : Store) (now : Date)
    (h : s oid = none) :
    handleCheckoutSessionCompleted ⟨eid, some ⟨oid, cid, "order_payment"⟩⟩ s now = s := by
  unfold handleCheckoutSessionCompleted
  simp only [if_true]
  rw [updatePaymentStatus_notFound s now oid "paid" cid "client" h (by decide)]

/-- The success-path webhook handler when the metadata customer does not own
the order: the unauthorized error is swallowed and the store is unchanged. -/
theorem handleCheckout_mismatch (eid oid cid : String) (s : Store) (now : Date) (o : Order)
    (h : s oid = some o) (hc : o.customerId ≠ cid) :
    handleCheckoutSessionCompleted ⟨eid, some ⟨oid, cid, "order_payment"⟩⟩ s now = s := by
  unfold handleCheckoutSessionCompleted
  simp only [if_true]
  rw [updatePaymentStatus_err_customer s now oid "paid" cid o h (by decide) hc]

/-- Applying the success-path handler twice gives the same collection as
applying it once, up to the `updatedAt` bumps. -/
theorem handleCheckout_idem (eid oid cid : String) (s : Store) (now1 now2 : Date) :
    clearStoreUpdatedAt
        (handleCheckoutSessionCompleted ⟨eid, some ⟨oid, cid, "order_payment"⟩⟩
          (handleCheckoutSessionCompleted ⟨eid, some ⟨oid, cid, "order_payment"⟩⟩ s now1) now2)
      = clearStoreUpdatedAt
          (handleCheckoutSessionCompleted ⟨eid, some ⟨oid, cid, "order_payment"⟩⟩ s now1) := by
  cases hcase : s oid with
  | none =>
    rw [handleCheckout_notFound eid oid cid s now1 hcase,
      handleCheckout_notFound eid oid cid s now2 hcase]
  | some o =>
    by_cases hc : o.customerId = cid
    · rw [handleCheckout_found eid oid cid s now1 o hcase hc]
      rw [handleCheckout_found eid oid cid _ now2
        { o with status := "confirmed", paymentStatus := "pending", messages := [], updatedAt := now1 }
        (Store.set_same s oid _) hc]
      rw [Store.set_set]
      funext k
      by_cases hk : k = oid <;>
        simp [clearStoreUpdatedAt, Store.set, hk, Order.clearUpdatedAt]
    · rw [handleCheckout_mismatch eid oid cid s now1 o hcase hc,
        handleCheckout_mismatch eid oid cid s now2 o hcase hc]

/-- The two success handlers have identical bodies. -/
theorem handlePaymentIntentSucceeded_eq :
    handlePaymentIntentSucceeded = handleCheckoutSessionCompleted := rfl

/-! ## Claims -/

/-- **C1, code bug.** For a success event with `order_payment` metadata the
webhook route does call `updatePaymentStatus('paid')` then
`updateOrderStatus('confirmed')`, and redelivering the same event is
idempotent up to the `updatedAt` bump — but the claimed end state is wrong:
the second call's forked-schema validation re-injects the default
`paymentStatus: 'pending'`, overwriting the `paid` written a moment earlier,
so one delivery ends `status = confirmed`, `paymentStatus = pending` —
evaluated here at a concrete pending order, with the idempotence half proved
for every store and both success event types. -/
theorem c1_success_event_clobbers_paid :
    processWebhookEvent
        ⟨"checkout.session.completed", ⟨"cs_1", some ⟨"o1", "c1", "order_payment"⟩⟩⟩ exStore 7 "o1"
      = some { exOrder with
          status := "confirmed", paymentStatus := "pending", messages := [], updatedAt := 7 } ∧
    (processWebhookEvent
        ⟨"checkout.session.completed", ⟨"cs_1", some ⟨"o1", "c1", "order_payment"⟩⟩⟩
        exStore 7 "o1").map Order.paymentStatus ≠ some "paid" ∧
    (∀ (eid oid cid : String) (s : Store) (now1 now2 : Date),
      clearStoreUpdatedAt
          (processWebhookEvent ⟨"checkout.session.completed", ⟨eid, some ⟨oid, cid, "order_payment"⟩⟩⟩
            (processWebhookEvent
              ⟨"checkout.session.completed", ⟨eid, some ⟨oid, cid, "order_payment"⟩⟩⟩ s now1) now2)
        = clearStoreUpdatedAt
            (processWebhookEvent
              ⟨"checkout.session.completed", ⟨eid, some ⟨oid, cid, "order_payment"⟩⟩⟩ s now1)) ∧
    (∀ (eid oid cid : String) (s : Store) (now1 now2 : Date),
      clearStoreUpdatedAt
          (processWebhookEvent ⟨"payment_intent.succeeded", ⟨eid, some ⟨oid, cid, "order_payment"⟩⟩⟩
            (processWebhookEvent
              ⟨"payment_intent.succeeded", ⟨eid, some ⟨oid, cid, "order_payment"⟩⟩⟩ s now1) now2)
        = clearStoreUpdatedAt
            (processWebhookEvent
              ⟨"payment_intent.succeeded", ⟨eid, some ⟨oid, cid, "order_payment"⟩⟩⟩ s now1)) := by
  refine ⟨by decide, by decide, ?_, ?_⟩
  · intro eid oid cid s now1 now2
    have hred : ∀ (s' : Store) (now' : Date),
        processWebhookEvent
            ⟨"checkout.session.completed", ⟨eid, some ⟨oid, cid, "order_payment"⟩⟩⟩ s' now'
          = handleCheckoutSessionCompleted ⟨eid, some ⟨oid, cid, "order_payment"⟩⟩ s' now' := by
      intro s' now'
      simp [processWebhookEvent]
    simp only [hred]
    exact handleCheckout_idem eid oid cid s now1 now2
  · intro eid oid cid s now1 now2
    have hred : ∀ (s' : Store) (now' : Date),
        processWebhookEvent
            ⟨"payment_intent.succeeded", ⟨eid, some ⟨oid, cid, "order_payment"⟩⟩⟩ s' now'
          = handleCheckoutSessionCompleted ⟨eid, some ⟨oid, cid, "order_payment"⟩⟩ s' now' := by
      intro s' now'
      simp [processWebhookEvent, handlePaymentIntentSucceeded_eq]
    simp only [hred]
    exact handleCheckout_idem eid oid cid s now1 now2

/-- **C2, code bug.** `payment_intent.payment_failed` does set
`paymentStatus = failed`, but the same write carries the forked schema's
injected defaults `status: 'pending'` and `messages: []`, so the event resets
a confirmed order's business status to `pending` and wipes its message list —
the claim's "changes no other order field except the update timestamp" and
"the business status field is never changed" are false. Evaluated at a
concrete confirmed order of the matching customer. -/
theorem c2_payment_failed_resets_status :
    processWebhookEvent
        ⟨"payment_intent.payment_failed", ⟨"pi_1", some ⟨"o1", "c1", "order_payment"⟩⟩⟩
        exStoreConfirmed 7 "o1"
      = some { exConfirmedOrder with
          status := "pending", paymentStatus := "failed", messages := [], updatedAt := 7 } ∧
    exConfirmedOrder.status = "confirmed" ∧
    (processWebhookEvent
        ⟨"payment_intent.payment_failed", ⟨"pi_1", some ⟨"o1", "c1", "order_payment"⟩⟩⟩
        exStoreConfirmed 7 "o1").map Order.status ≠ some "confirmed" := by
  refine ⟨by decide, by decide, by decide⟩

/-- `cancelOrder` on a completed order: the terminal-status error, regardless
of who calls. -/
theorem cancelOrder_completed_err (s : Store) (now : Date) (oid : String)
    (cd : CancellationData) (uid ut : String) (o : Order) (h : s oid = some o)
    (h1 : o.status = "completed") :
    cancelOrder s now oid cd uid ut
      = .error "Failed to cancel order: Cannot cancel a completed order" := by
  unfold cancelOrder
  rw [h]
  dsimp only
  rw [if_pos h1]
  rfl

/-- `cancelOrder` on an already cancelled order: the already-cancelled error,
regardless of who calls. -/
theorem cancelOrder_cancelled_err (s : Store) (now : Date) (oid : String)
    (cd : CancellationData) (uid ut : String) (o : Order) (h : s oid = some o)
    (h1 : o.status = "cancelled") :
    cancelOrder s now oid cd uid ut
      = .error "Failed to cancel order: Order is already cancelled" := by
  have hne : o.status ≠ "completed" := by rw [h1]; decide
  unfold cancelOrder
  rw [h]
  dsimp only
  rw [if_neg hne, if_pos h1]
  rfl

/-- `cancelOrder` success on a non-terminal order by an authorized actor whose
role is one the cancellation schema accepts. -/
theorem cancelOrder_ok (s : Store) (now : Date) (oid : String) (cd : CancellationData)
    (uid ut : String) (o : Order) (h : s oid = some o)
    (hnc : o.status ≠ "completed") (hncc : o.status ≠ "cancelled")
    (hrole : ut = "customer" ∨ ut = "provider" ∨ ut = "admin")
    (hcust : ut = "customer" → o.customerId = uid)
    (hprov : ut = "provider" → o.providerId = uid)
    (hrefund : ∀ q, cd.refundAmount = some q → 0 ≤ q) :
    cancelOrder s now oid cd uid ut
      = .ok (cancelledWith o cd ut now, s.set oid (cancelledWith o cd ut now)) := by
  have hperm1 : ¬ (ut = "customer" ∧ o.customerId ≠ uid) := by
    rintro ⟨h1, h2⟩
    exact h2 (hcust h1)
  have hperm2 : ¬ (ut = "provider" ∧ o.providerId ≠ uid) := by
    rintro ⟨h1, h2⟩
    exact h2 (hprov h1)
  have hup1 : ¬ ((ut = "customer" ∨ ut = "client") ∧ o.customerId ≠ uid) := by
    rintro ⟨h1 | h1, h2⟩
    · exact h2 (hcust h1)
    · rcases hrole with h3 | h3 | h3 <;> simp [h1] at h3
  have hb : (["customer", "provider", "admin"] : List String).contains ut = true := by
    rcases hrole with h3 | h3 | h3 <;> subst h3 <;> decide
  have hval : validateUpdateData
      { emptyUpdate with
        status := some "cancelled"
        cancellation := some { cd with cancelledBy := some ut, cancelledAt := some now } }
        = [] := by
    simp only [validateUpdateData, emptyUpdate]
    cases hre : cd.refundAmount with
    | none =>
      simp [hb]
      exact ⟨by decide, fun h1 h2 => (hrole.resolve_left h1).resolve_left h2⟩
    | some q =>
      simp [hb, hrefund q hre]
      exact ⟨by decide, fun h1 h2 => (hrole.resolve_left h1).resolve_left h2⟩
  unfold cancelOrder
  rw [h]
  dsimp only
  rw [if_neg hnc, if_neg hncc, if_neg hperm1, if_neg hperm2,
    updateOrder_ok s now oid _ uid ut o h hup1 hperm2 hval]
  rfl

/-- **C4.** `cancelOrder` fails with the cannot-cancel error on an order whose
status is `completed`, with the already-cancelled error on a `cancelled`
order, and in every other status an authorized actor (matching customer,
matching provider, or admin) succeeds: the order ends `cancelled` and carries
a cancellation record with `cancelledBy` equal to the caller's role and
`cancelledAt = now` (`cancellationData` is assumed to pass the cancellation
schema, i.e. any supplied `refundAmount` is non-negative). -/
theorem c4_cancel_guard_and_success (s : Store) (now : Date) (oid : String)
    (cd : CancellationData) (uid ut : String) (o : Order) (h : s oid = some o) :
    (o.status = "completed" →
      cancelOrder s now oid cd uid ut
        = .error "Failed to cancel order: Cannot cancel a completed order") ∧
    (o.status = "cancelled" →
      cancelOrder s now oid cd uid ut
        = .error "Failed to cancel order: Order is already cancelled") ∧
    (o.status ≠ "completed" → o.status ≠ "cancelled" →
      (ut = "customer" ∨ ut = "provider" ∨ ut = "admin") →
      (ut = "customer" → o.customerId = uid) →
      (ut = "provider" → o.providerId = uid) →
      (∀ q, cd.refundAmount = some q → 0 ≤ q) →
      cancelOrder s now oid cd uid ut
        = .ok (cancelledWith o cd ut now, s.set oid (cancelledWith o cd ut now))) :=
  ⟨cancelOrder_completed_err s now oid cd uid ut o h,
   cancelOrder_cancelled_err s now oid cd uid ut o h,
   fun hnc hncc hrole hcust hprov hrefund =>
     cancelOrder_ok s now oid cd uid ut o h hnc hncc hrole hcust hprov hrefund⟩

/-- Witness for C4: cancelling the completed order `o2` fails for an arbitrary
caller, while the owning customer cancels the pending order `o1`, producing
the cancellation record stamped with their role. -/
theorem c4_cancel_guard_and_success_witness :
    cancelOrder exStoreCompleted 7 "o2" exCancellation "someone" "client"
      = .error "Failed to cancel order: Cannot cancel a completed order" ∧
    cancelOrder exStore 7 "o1" exCancellation "c1" "customer"
      = .ok (cancelledWith exOrder exCancellation "customer" 7,
             exStore.set "o1" (cancelledWith exOrder exCancellation "customer" 7)) :=
  ⟨(c4_cancel_guard_and_success exStoreCompleted 7 "o2" exCancellation "someone" "client"
      exCompletedOrder rfl).1 rfl,
   (c4_cancel_guard_and_success exStore 7 "o1" exCancellation "c1" "customer"
      exOrder rfl).2.2 (by decide) (by decide) (Or.inl rfl) (fun _ => rfl)
      (fun hp => absurd hp (by decide)) (fun q hq => Option.noConfusion hq)⟩

/-- **C10.** In `cancelOrder` the terminal-status guard runs before the
ownership check: on an order whose status is `completed` or `cancelled`,
every caller — whatever their id and role, owner or not — receives the
corresponding cannot-cancel / already-cancelled error, so the `Unauthorized`
error is never produced for such an order. -/
theorem c10_cancel_status_guard_before_ownership (s : Store) (now : Date) (oid : String)
    (cd : CancellationData) (uid ut : String) (o : Order) (h : s oid = some o) :
    (o.status = "completed" →
      cancelOrder s now oid cd uid ut
        = .error "Failed to cancel order: Cannot cancel a completed order") ∧
    (o.status = "cancelled" →
      cancelOrder s now oid cd uid ut
        = .error "Failed to cancel order: Order is already cancelled") ∧
    ((o.status = "completed" ∨ o.status = "cancelled") →
      cancelOrder s now oid cd uid ut
        ≠ .error "Failed to cancel order: Unauthorized: You can only cancel your own orders" ∧
      cancelOrder s now oid cd uid ut
        ≠ .error "Failed to cancel order: Unauthorized: You can only cancel orders for your services") := by
  refine ⟨cancelOrder_completed_err s now oid cd uid ut o h,
    cancelOrder_cancelled_err s now oid cd uid ut o h, ?_⟩
  rintro (h1 | h1)
  · rw [cancelOrder_completed_err s now oid cd uid ut o h h1]
    refine ⟨fun he => ?_, fun he => ?_⟩ <;> simp at he
  · rw [cancelOrder_cancelled_err s now oid cd uid ut o h h1]
    refine ⟨fun he => ?_, fun he => ?_⟩ <;> simp at he

/-- Witness for C10: a caller who is neither the customer nor the provider of
the cancelled order `o3` still gets the already-cancelled error. -/
theorem c10_cancel_status_guard_before_ownership_witness :
    cancelOrder exStoreCancelled 7 "o3" exCancellation "stranger" "client"
      = .error "Failed to cancel order: Order is already cancelled" :=
  (c10_cancel_status_guard_before_ownership exStoreCancelled 7 "o3" exCancellation
    "stranger" "client" exCancelledOrder rfl).2.1 rfl

/-- A caller who is not a customer, or not the owning customer, cannot review. -/
theorem addReview_unauthorized (s : Store) (now : Date) (oid : String) (rd : ReviewData)
    (uid ut : String) (o : Order) (h : s oid = some o)
    (hu : ut ≠ "customer" ∨ o.customerId ≠ uid) :
    addReview s now oid rd uid ut
      = .error "Failed to add review: Unauthorized: Only customers can add reviews to their orders" := by
  unfold addReview
  rw [h]
  dsimp only
  rw [if_pos hu]
  rfl

/-- The owning customer cannot review before the order is completed. -/
theorem addReview_notCompleted (s : Store) (now : Date) (oid : String) (rd : ReviewData)
    (uid ut : String) (o : Order) (h : s oid = some o)
    (hut : ut = "customer") (hid : o.customerId = uid) (hst : o.status ≠ "completed") :
    addReview s now oid rd uid ut
      = .error "Failed to add review: Can only review completed orders" := by
  have hcond : ¬ (ut ≠ "customer" ∨ o.customerId ≠ uid) := by
    push_neg
    exact ⟨hut, hid⟩
  unfold addReview
  rw [h]
  dsimp only
  rw [if_neg hcond, if_pos hst]
  rfl

/-- A review can be attached at most once. -/
theorem addReview_already (s : Store) (now : Date) (oid : String) (rd : ReviewData)
    (uid ut : String) (o : Order) (r : ReviewData) (h : s oid = some o)
    (hut : ut = "customer") (hid : o.customerId = uid) (hst : o.status = "completed")
    (hr : o.review = some r) :
    addReview s now oid rd uid ut
      = .error "Failed to add review: Review already exists for this order" := by
  have hcond : ¬ (ut ≠ "customer" ∨ o.customerId ≠ uid) := by
    push_neg
    exact ⟨hut, hid⟩
  have hst2 : ¬ o.status ≠ "completed" := by
    push_neg
    exact hst
  unfold addReview
  rw [h]
  dsimp only
  rw [if_neg hcond, if_neg hst2, hr]
  rfl

/-- Under the three guards, `addReview` is the wrapped `updateOrder` call with
the review update object. -/
theorem addReview_reduces (s : Store) (now : Date) (oid : String) (rd : ReviewData)
    (uid ut : String) (o : Order) (h : s oid = some o)
    (hut : ut = "customer") (hid : o.customerId = uid) (hst : o.status = "completed")
    (hrev : o.review = none) :
    addReview s now oid rd uid ut
      = wrapError "Failed to add review: "
          (updateOrder s now oid (reviewUpdate rd now) uid ut) := by
  have hcond : ¬ (ut ≠ "customer" ∨ o.customerId ≠ uid) := by
    push_neg
    exact ⟨hut, hid⟩
  have hst2 : ¬ o.status ≠ "completed" := by
    push_neg
    exact hst
  unfold addReview
  rw [h]
  dsimp only
  rw [if_neg hcond, if_neg hst2, hrev]
  rfl

/-- **C5, amended.** `addReview` can succeed only for the owning customer on
a completed, not-yet-reviewed order: a non-customer or non-owner caller fails
`Unauthorized`; the owner fails `CannotReview` before `status = completed`;
with an existing review it fails the already-reviewed error; and whenever a
call succeeds, the caller was the owning customer, the order was completed
and unreviewed — and a second `addReview` on the same order then fails, but
with the `CannotReview` error rather than the already-reviewed one, because
the successful write re-injected the forked schema's `status: 'pending'`
default, and the completed-status guard runs before the review-exists guard. -/
theorem c5_addReview_guards (s : Store) (now now2 : Date) (oid : String) (rd rd2 : ReviewData)
    (uid ut : String) (o : Order) (h : s oid = some o) :
    (ut ≠ "customer" ∨ o.customerId ≠ uid →
      addReview s now oid rd uid ut
        = .error "Failed to add review: Unauthorized: Only customers can add reviews to their orders") ∧
    (ut = "customer" → o.customerId = uid → o.status ≠ "completed" →
      addReview s now oid rd uid ut
        = .error "Failed to add review: Can only review completed orders") ∧
    (∀ r, ut = "customer" → o.customerId = uid → o.status = "completed" → o.review = some r →
      addReview s now oid rd uid ut
        = .error "Failed to add review: Review already exists for this order") ∧
    (∀ o' s', addReview s now oid rd uid ut = .ok (o', s') →
      (ut = "customer" ∧ o.customerId = uid ∧ o.status = "completed" ∧ o.review = none) ∧
      addReview s' now2 oid rd2 uid ut
        = .error "Failed to add review: Can only review completed orders") := by
  refine ⟨addReview_unauthorized s now oid rd uid ut o h,
    addReview_notCompleted s now oid rd uid ut o h,
    fun r => addReview_already s now oid rd uid ut o r h, ?_⟩
  intro o' s' hok
  by_cases hut : ut = "customer"
  case neg =>
    rw [addReview_unauthorized s now oid rd uid ut o h (Or.inl hut)] at hok
    cases hok
  by_cases hid : o.customerId = uid
  case neg =>
    rw [addReview_unauthorized s now oid rd uid ut o h (Or.inr hid)] at hok
    cases hok
  by_cases hst : o.status = "completed"
  case neg =>
    rw [addReview_notCompleted s now oid rd uid ut o h hut hid hst] at hok
    cases hok
  cases hrev : o.review with
  | some r =>
    rw [addReview_already s now oid rd uid ut o r h hut hid hst hrev] at hok
    cases hok
  | none =>
    rw [addReview_reduces s now oid rd uid ut o h hut hid hst hrev] at hok
    have hup1 : ¬ ((ut = "customer" ∨ ut = "client") ∧ o.customerId ≠ uid) := by
      rintro ⟨-, h2⟩
      exact h2 hid
    have hup2 : ¬ (ut = "provider" ∧ o.providerId ≠ uid) := by
      rintro ⟨h1, -⟩
      rw [hut] at h1
      exact absurd h1 (by decide)
    by_cases hval : validateUpdateData (reviewUpdate rd now) = []
    case neg =>
      have herr : updateOrder s now oid (reviewUpdate rd now) uid ut
          = .error ("Failed to update order: Validation error: " ++
              String.intercalate ", " (validateUpdateData (reviewUpdate rd now))) := by
        unfold updateOrder
        rw [h]
        dsimp only
        rw [if_neg hup1, if_neg hup2, if_neg hval]
      rw [herr] at hok
      cases hok
    case pos =>
      rw [updateOrder_ok s now oid (reviewUpdate rd now) uid ut o h hup1 hup2 hval] at hok
      dsimp only [wrapError] at hok
      injection hok with hpair
      injection hpair with ho' hs'
      refine ⟨⟨hut, hid, hst, rfl⟩, ?_⟩
      subst hs'
      exact addReview_notCompleted _ now2 oid rd2 uid ut (applyUpdate o (reviewUpdate rd now) now)
        (Store.set_same s oid _) hut hid (show ("pending" : String) ≠ "completed" by decide)

/-- **C5, counterexample.** The claim's second-call behaviour is false of the
program: a successful `addReview` re-injects the `status: 'pending'` default
into the order, so the second call by the same customer trips the
completed-status guard first and fails `Can only review completed orders`,
not `Review already exists for this order`. -/
theorem c5_counterexample :
    addReview exStoreCompleted 7 "o2" exReview "c1" "customer"
      = .ok (reviewedWith exCompletedOrder exReview 7,
             exStoreCompleted.set "o2" (reviewedWith exCompletedOrder exReview 7)) ∧
    addReview (exStoreCompleted.set "o2" (reviewedWith exCompletedOrder exReview 7)) 9 "o2"
        exReview "c1" "customer"
      = .error "Failed to add review: Can only review completed orders" ∧
    addReview (exStoreCompleted.set "o2" (reviewedWith exCompletedOrder exReview 7)) 9 "o2"
        exReview "c1" "customer"
      ≠ .error "Failed to add review: Review already exists for this order" := by
  refine ⟨rfl, rfl, ?_⟩
  intro heq
  have h1 : addReview (exStoreCompleted.set "o2" (reviewedWith exCompletedOrder exReview 7)) 9 "o2"
      exReview "c1" "customer"
    = .error "Failed to add review: Can only review completed orders" := rfl
  rw [h1] at heq
  injection heq with h2
  exact absurd h2 (by decide)

/-- Witness for the amended C5: the non-owner fails, reviewing a pending
order fails, and the second attempt on the reviewed order `o2` fails with the
completed-status guard. -/
theorem c5_addReview_guards_witness :
    addReview exStoreCompleted 7 "o2" exReview "stranger" "customer"
      = .error "Failed to add review: Unauthorized: Only customers can add reviews to their orders" ∧
    addReview exStore 7 "o1" exReview "c1" "customer"
      = .error "Failed to add review: Can only review completed orders" ∧
    addReview (exStoreCompleted.set "o2" (reviewedWith exCompletedOrder exReview 7)) 9 "o2"
        exReview "c1" "customer"
      = .error "Failed to add review: Can only review completed orders" :=
  ⟨(c5_addReview_guards exStoreCompleted 7 9 "o2" exReview exReview "stranger" "customer"
      exCompletedOrder rfl).1 (Or.inr (by decide)),
   (c5_addReview_guards exStore 7 9 "o1" exReview exReview "c1" "customer"
      exOrder rfl).2.1 rfl rfl (by decide),
   ((c5_addReview_guards exStoreCompleted 7 9 "o2" exReview exReview "c1" "customer"
      exCompletedOrder rfl).2.2.2 (reviewedWith exCompletedOrder exReview 7)
      (exStoreCompleted.set "o2" (reviewedWith exCompletedOrder exReview 7)) rfl).2⟩

/-- **C7.** `createPaymentSession` fails `Unauthorized` when the caller is not
the order's customer; fails the not-payable error unless the order status is
`pending` or `confirmed`; fails the already-paid error when
`paymentStatus = paid`; and otherwise asks the gateway for a checkout session
built from the order — whose metadata is exactly
`{orderId, customerId, type: "order_payment"}`, whose line-item amount is the
order's total in cents, and whose currency is the order's currency. -/
theorem c7_createPaymentSession (s : Store) (oid cid : String)
    (gw : CheckoutSessionData → Except String StripeSession) (o : Order)
    (h : s oid = some o) :
    (o.customerId ≠ cid →
      createPaymentSession s oid cid gw
        = .error "Failed to create payment session: Unauthorized: You can only pay for your own orders") ∧
    (o.customerId = cid → o.status ≠ "pending" → o.status ≠ "confirmed" →
      createPaymentSession s oid cid gw
        = .error "Failed to create payment session: Order is not in a payable state") ∧
    (o.customerId = cid → (o.status = "pending" ∨ o.status = "confirmed") →
      o.paymentStatus = "paid" →
      createPaymentSession s oid cid gw
        = .error "Failed to create payment session: Order has already been paid") ∧
    (o.customerId = cid → (o.status = "pending" ∨ o.status = "confirmed") →
      o.paymentStatus ≠ "paid" →
      createPaymentSession s oid cid gw
        = (match gw (buildOrderSessionData o oid cid) with
           | .error e => .error ("Failed to create payment session: " ++ e)
           | .ok session =>
             .ok ⟨session.id, session.url, oid, o.pricing.totalAmount,
                  jsOrStr (some o.pricing.currency) "usd"⟩) ∧
      (buildOrderSessionData o oid cid).metadata = ⟨oid, cid, "order_payment"⟩ ∧
      (buildOrderSessionData o oid cid).unitAmount = jsRound (o.pricing.totalAmount * 100) ∧
      (buildOrderSessionData o oid cid).currency = jsOrStr (some o.pricing.currency) "usd") := by
  refine ⟨?_, ?_, ?_, ?_⟩
  · intro hne
    unfold createPaymentSession
    rw [h]
    dsimp only
    rw [if_pos hne]
    rfl
  · intro hcid hp hc
    have hown : ¬ o.customerId ≠ cid := not_not.mpr hcid
    unfold createPaymentSession
    rw [h]
    dsimp only
    rw [if_neg hown, if_pos ⟨hp, hc⟩]
    rfl
  · intro hcid hstat hpaid
    have hown : ¬ o.customerId ≠ cid := not_not.mpr hcid
    have hpay : ¬ (o.status ≠ "pending" ∧ o.status ≠ "confirmed") := by
      rintro ⟨h1, h2⟩
      rcases hstat with h3 | h3
      · exact h1 h3
      · exact h2 h3
    unfold createPaymentSession
    rw [h]
    dsimp only
    rw [if_neg hown, if_neg hpay, if_pos hpaid]
    rfl
  · intro hcid hstat hpaid
    have hown : ¬ o.customerId ≠ cid := not_not.mpr hcid
    have hpay : ¬ (o.status ≠ "pending" ∧ o.status ≠ "confirmed") := by
      rintro ⟨h1, h2⟩
      rcases hstat with h3 | h3
      · exact h1 h3
      · exact h2 h3
    refine ⟨?_, rfl, rfl, rfl⟩
    unfold createPaymentSession
    rw [h]
    dsimp only
    rw [if_neg hown, if_neg hpay, if_neg hpaid]
    cases hgw : gw (buildOrderSessionData o oid cid) with
    | error e => rfl
    | ok session => rfl

/-- Witness for C7: the pending, unpaid order `o1` yields a session request
whose metadata is the order / customer correlation triple, and the service
returns the gateway's session for the order's total. -/
theorem c7_createPaymentSession_witness :
    createPaymentSession exStore "o1" "c1" exGateway
      = .ok ⟨"cs_test_1", "https://checkout.example/cs_test_1", "o1", 120, "USD"⟩ ∧
    (buildOrderSessionData exOrder "o1" "c1").metadata = ⟨"o1", "c1", "order_payment"⟩ ∧
    createPaymentSession exStore "o1" "stranger" exGateway
      = .error "Failed to create payment session: Unauthorized: You can only pay for your own orders" :=
  ⟨((c7_createPaymentSession exStore "o1" "c1" exGateway exOrder rfl).2.2.2 rfl
      (Or.inl rfl) (by decide)).1,
   ((c7_createPaymentSession exStore "o1" "c1" exGateway exOrder rfl).2.2.2 rfl
      (Or.inl rfl) (by decide)).2.1,
   (c7_createPaymentSession exStore "o1" "stranger" exGateway exOrder rfl).1 (by decide)⟩

/-- **C3.** `calculateEndDate` reads `PLAN_CONFIG[planType]?.monthly?.days`,
but `PLAN_CONFIG` is keyed by plan NAME, so for the actual plan types
(`monthly`, `yearly`) the lookup is undefined and the `|| 30` fallback always
fires: every plan — the yearly ones included — ends 30 days after `now`,
contradicting the spec's monthly→30 / yearly→365 table. The conjuncts:
the day count is 30 for EVERY `planType` string; at `yearly` it is 30 and not
365 days; and a concrete yearly basic activation stores
`endDate = now + 30 days`. -/
theorem c3_calculateEndDate_always_30_days :
    (∀ (planType : String) (startDate : Date),
      calculateEndDate planType startDate = startDate + 30 * msPerDay) ∧
    calculateEndDate "yearly" 0 = 30 * msPerDay ∧
    calculateEndDate "yearly" 0 ≠ 365 * msPerDay ∧
    ((activateProviderPlan (fun _ => none) 0 "p1" "basic" "yearly" ⟨none, none, none⟩).2
        "p1").map ProviderPlan.endDate = some (30 * msPerDay) ∧
    (activateProviderPlan (fun _ => none) 0 "p1" "basic" "yearly" ⟨none, none, none⟩).1.success
      = true := by
  refine ⟨?_, by decide, by decide, by decide, by decide⟩
  intro planType startDate
  unfold calculateEndDate PLAN_CONFIG
  split_ifs <;> rfl

/-- **C8.** `upgradeProviderPlan` does fail `PlanNotFound` with no current
plan and `CannotDowngrade` for a non-higher plan (also for an equal plan),
but its success path can never complete: the plan object it writes carries
the `upgradePrice` and `previousPlan` keys, which `providerPlanSchema` does
not declare, so Joi validation (default `allowUnknown: false`) rejects every
upgrade — `basic → premium` returns a failure instead of the stacked-period
success the spec describes. -/
theorem c8_upgrade_always_rejected :
    (upgradeProviderPlan (fun _ => none) 0 "p1" "premium" "monthly").1
      = ⟨false, some "Current plan not found"⟩ ∧
    (upgradeProviderPlan exPlanStore 0 "p1" "free" "monthly").1
      = ⟨false, some "Cannot downgrade plan"⟩ ∧
    (upgradeProviderPlan exPlanStore 0 "p1" "basic" "monthly").1
      = ⟨false, some "Cannot downgrade plan"⟩ ∧
    (upgradeProviderPlan exPlanStore 0 "p1" "premium" "monthly").1
      = ⟨false, some "upgradePrice is not allowed"⟩ ∧
    (upgradeProviderPlan exPlanStore 0 "p1" "premium" "monthly").1.success = false := by
  decide

/-- `Nat.digitChar` of a value below ten is a decimal digit character. -/
theorem digitChar_isDigit (m : Nat) (h : m < 10) : (Nat.digitChar m).isDigit = true := by
  interval_cases m <;> decide

/-- Base-ten `Nat.toDigitsCore` only ever emits decimal digit characters. -/
theorem toDigitsCore_isDigit (fuel : Nat) :
    ∀ (n : Nat) (ds : List Char), (∀ c ∈ ds, c.isDigit = true) →
      ∀ c ∈ Nat.toDigitsCore 10 fuel n ds, c.isDigit = true := by
  induction fuel with
  | zero =>
    intro n ds hds c hc
    exact hds c hc
  | succ f ih =>
    intro n ds hds c hc
    unfold Nat.toDigitsCore at hc
    dsimp only at hc
    by_cases h0 : n / 10 = 0
    · rw [if_pos h0] at hc
      rcases List.mem_cons.mp hc with h1 | h1
      · subst h1
        exact digitChar_isDigit _ (Nat.mod_lt n (by decide))
      · exact hds c h1
    · rw [if_neg h0] at hc
      refine ih (n / 10) (Nat.digitChar (n % 10) :: ds) ?_ c hc
      intro c' hc'
      rcases List.mem_cons.mp hc' with h1 | h1
      · subst h1
        exact digitChar_isDigit _ (Nat.mod_lt n (by decide))
      · exact hds c' h1

/-- Every character of the decimal rendering of a natural number is a digit. -/
theorem natRepr_isDigit (n : Nat) : ∀ c ∈ (Nat.repr n).toList, c.isDigit = true := by
  intro c hc
  exact toDigitsCore_isDigit (n + 1) n [] (by intro c' hc'; cases hc') c hc

/-- Every character of `toString` of a non-negative integer is a digit. -/
theorem intToString_isDigit (n : Int) (h : 0 ≤ n) :
    ∀ c ∈ (toString n).toList, c.isDigit = true := by
  cases n with
  | ofNat m => exact natRepr_isDigit m
  | negSucc m => exact absurd h (by exact of_decide_eq_false rfl)

/-- With at least five random base-36 digits, the generated suffix has length
exactly five. -/
theorem randSuffix_length (digits : List (Fin 36)) (h : 5 ≤ digits.length) :
    (randSuffix digits).length = 5 := by
  simp [randSuffix, String.length, List.length_take]
  omega

/-- Every character of the generated suffix is an uppercase letter or digit. -/
theorem randSuffix_upperAlnum (digits : List (Fin 36)) :
    ∀ c ∈ (randSuffix digits).toList, c.isUpper = true ∨ c.isDigit = true := by
  have hall : ∀ d : Fin 36,
      (base36Char d).toUpper.isUpper = true ∨ (base36Char d).toUpper.isDigit = true := by
    decide
  intro c hc
  have hlist : (randSuffix digits).toList = ((digits.take 5).map base36Char).map Char.toUpper :=
    rfl
  rw [hlist] at hc
  rcases List.mem_map.mp hc with ⟨c', hc', rfl⟩
  rcases List.mem_map.mp hc' with ⟨d, hd, rfl⟩
  exact hall d

/-- **C6, counterexample.** The claim fails as stated on two counts: the Joi
order schema accepts a caller-supplied `status`, so a valid creation input
carrying `status: "completed"` produces a non-`pending` order; and when the
`Math.random()` draw yields no base-36 fraction digits (e.g. the draw `0`),
the generated order number's random suffix is empty rather than five
characters. -/
theorem c6_counterexample :
    (match createOrder exValidInputWithStatus "c1" 5 exDigits with
     | .ok o => o.status
     | .error _ => "error") = "completed" ∧
    (match createOrder exValidInput "c1" 5 [] with
     | .ok o => o.orderNumber
     | .error _ => "error") = "PNL-5-" := by
  decide

/-- **C6, amended.** For every valid order-creation input that supplies none
of `status`, `paymentStatus`, `orderNumber`, and when the random draw provides
at least five base-36 fraction digits, `createOrder` yields an order with
`status = pending`, `paymentStatus = pending`, creation and update timestamps
stamped `now`, and an order number `PNL-<digits>-<5 uppercase-alphanumeric
characters>`; and an invalid input fails with a `ValidationError` listing
every violated field, not only the first (here: the missing provider id AND
the non-positive base amount). -/
theorem c6_create_pending_and_full_errors (input : OrderInput) (cid : String) (nowMs : Date)
    (digits : List (Fin 36)) (o : Order)
    (hst : input.status = none) (hps : input.paymentStatus = none)
    (hon : input.orderNumber = none) (hlen : 5 ≤ digits.length) (hnn : 0 ≤ nowMs)
    (hok : createOrder input cid nowMs digits = .ok o) :
    (o.status = "pending" ∧ o.paymentStatus = "pending" ∧
     o.createdAt = nowMs ∧ o.updatedAt = nowMs ∧
     o.orderNumber = "PNL-" ++ toString nowMs ++ "-" ++ randSuffix digits ∧
     (randSuffix digits).length = 5 ∧
     (∀ c ∈ (randSuffix digits).toList, c.isUpper = true ∨ c.isDigit = true) ∧
     (∀ c ∈ (toString nowMs).toList, c.isDigit = true)) ∧
    createOrder exInvalidInput "c1" 5 []
      = .error "Failed to create order: Validation error: Provider ID is required, pricing.baseAmount must be a positive number" := by
  refine ⟨?_, by rfl⟩
  unfold createOrder createOrderDocument at hok
  by_cases hv : validateOrderInput { input with customerId := some cid } = []
  case neg =>
    rw [if_neg hv] at hok
    dsimp only [wrapError] at hok
    cases hok
  case pos =>
    rw [if_pos hv] at hok
    dsimp only [wrapError] at hok
    injection hok with ho
    subst ho
    refine ⟨?_, ?_, rfl, rfl, ?_, randSuffix_length digits hlen,
      randSuffix_upperAlnum digits, intToString_isDigit nowMs hnn⟩
    · dsimp only
      rw [hst]
      rfl
    · dsimp only
      rw [hps]
      rfl
    · dsimp only
      rw [hon]
      rfl

/-- Witness for the amended C6: the concrete valid input yields the pending
order `PNL-5-ABCDE`. -/
theorem c6_create_pending_and_full_errors_witness :
    exCreatedOrder.status = "pending" ∧ exCreatedOrder.paymentStatus = "pending" ∧
    exCreatedOrder.orderNumber = "PNL-" ++ toString (5 : Int) ++ "-" ++ randSuffix exDigits :=
  ⟨((c6_create_pending_and_full_errors exValidInput "c1" 5 exDigits exCreatedOrder
      rfl rfl rfl (by decide) (by decide) rfl).1).1,
   ((c6_create_pending_and_full_errors exValidInput "c1" 5 exDigits exCreatedOrder
      rfl rfl rfl (by decide) (by decide) rfl).1).2.1,
   ((c6_create_pending_and_full_errors exValidInput "c1" 5 exDigits exCreatedOrder
      rfl rfl rfl (by decide) (by decide) rfl).1).2.2.2.2.1⟩

/-- `updateProviderRating` touches only the users collection. -/
theorem updateProviderRating_orders (st : FeedbackState) (pid : String) :
    (updateProviderRating st pid).orders = st.orders := by
  unfold updateProviderRating
  cases h : st.users pid with
  | none => rfl
  | some u =>
    dsimp only
    split_ifs <;> rfl

/-- `updateProviderRating` leaves the feedback collection unchanged. -/
theorem updateProviderRating_feedbacks (st : FeedbackState) (pid : String) :
    (updateProviderRating st pid).feedbacks = st.feedbacks := by
  unfold updateProviderRating
  cases h : st.users pid with
  | none => rfl
  | some u =>
    dsimp only
    split_ifs <;> rfl

theorem createFeedback_notFound (st : FeedbackState) (now : Date) (fd : FeedbackInput)
    (h : st.orders fd.orderId = none) :
    createFeedback st now fd = (⟨false, some "Order not found"⟩, st) := by
  unfold createFeedback
  rw [h]

theorem createFeedback_notOwner (st : FeedbackState) (now : Date) (fd : FeedbackInput)
    (o : Order) (h : st.orders fd.orderId = some o) (hne : o.customerId ≠ fd.clientId) :
    createFeedback st now fd = (⟨false, some "You can only review your own orders"⟩, st) := by
  unfold createFeedback
  rw [h]
  dsimp only
  rw [if_pos hne]

theorem createFeedback_notPaid (st : FeedbackState) (now : Date) (fd : FeedbackInput)
    (o : Order) (h : st.orders fd.orderId = some o) (hown : o.customerId = fd.clientId)
    (hnp : o.paymentStatus ≠ "paid") :
    createFeedback st now fd = (⟨false, some "You can only review paid orders"⟩, st) := by
  have h1 : ¬ o.customerId ≠ fd.clientId := not_not.mpr hown
  unfold createFeedback
  rw [h]
  dsimp only
  rw [if_neg h1, if_pos hnp]

theorem createFeedback_dup (st : FeedbackState) (now : Date) (fd : FeedbackInput)
    (o : Order) (h : st.orders fd.orderId = some o) (hown : o.customerId = fd.clientId)
    (hpaid : o.paymentStatus = "paid")
    (hlen : (st.feedbacks.filter (fun f => f.orderId == fd.orderId)).length ≠ 0) :
    createFeedback st now fd = (⟨false, some "You have already reviewed this order"⟩, st) := by
  have h1 : ¬ o.customerId ≠ fd.clientId := not_not.mpr hown
  have h2 : ¬ o.paymentStatus ≠ "paid" := not_not.mpr hpaid
  unfold createFeedback
  rw [h]
  dsimp only
  rw [if_neg h1, if_neg h2, if_pos hlen]

theorem createFeedback_badUsers (st : FeedbackState) (now : Date) (fd : FeedbackInput)
    (o : Order) (h : st.orders fd.orderId = some o) (hown : o.customerId = fd.clientId)
    (hpaid : o.paymentStatus = "paid")
    (hlen : (st.feedbacks.filter (fun f => f.orderId == fd.orderId)).length = 0)
    (hbad : st.users fd.clientId = none ∨ st.users fd.providerId = none) :
    createFeedback st now fd = (⟨false, some "Invalid client or provider"⟩, st) := by
  have h1 : ¬ o.customerId ≠ fd.clientId := not_not.mpr hown
  have h2 : ¬ o.paymentStatus ≠ "paid" := not_not.mpr hpaid
  have h3 : ¬ (st.feedbacks.filter (fun f => f.orderId == fd.orderId)).length ≠ 0 :=
    not_not.mpr hlen
  unfold createFeedback
  rw [h]
  dsimp only
  rw [if_neg h1, if_neg h2, if_neg h3]
  cases hc : st.users fd.clientId with
  | none =>
    cases hp : st.users fd.providerId <;> rfl
  | some client =>
    cases hp : st.users fd.providerId with
    | none => rfl
    | some provider =>
      rcases hbad with hbad | hbad
      · rw [hc] at hbad
        cases hbad
      · rw [hp] at hbad
        cases hbad

theorem createFeedback_ok (st : FeedbackState) (now : Date) (fd : FeedbackInput)
    (o : Order) (client provider : UserDoc)
    (h : st.orders fd.orderId = some o) (hown : o.customerId = fd.clientId)
    (hpaid : o.paymentStatus = "paid")
    (hlen : (st.feedbacks.filter (fun f => f.orderId == fd.orderId)).length = 0)
    (hc : st.users fd.clientId = some client) (hp : st.users fd.providerId = some provider) :
    createFeedback st now fd
      = (⟨true, none⟩,
         updateProviderRating
           { st with feedbacks := st.feedbacks ++ [feedbackDocOf st now fd client provider] }
           fd.providerId) := by
  have h1 : ¬ o.customerId ≠ fd.clientId := not_not.mpr hown
  have h2 : ¬ o.paymentStatus ≠ "paid" := not_not.mpr hpaid
  have h3 : ¬ (st.feedbacks.filter (fun f => f.orderId == fd.orderId)).length ≠ 0 :=
    not_not.mpr hlen
  unfold createFeedback
  rw [h]
  dsimp only
  rw [if_neg h1, if_neg h2, if_neg h3, hc, hp]
  rfl

/-- **C9, counterexample.** `createFeedback` checks only `paymentStatus`,
never the business status: for a paid order still in `pending` status the
submission succeeds, contradicting the claim that feedback requires an order
that is both completed and paid. -/
theorem c9_counterexample :
    (createFeedback exFeedbackState 5 exFeedbackInput).1.success = true ∧
    (exFeedbackState.orders "o1").map Order.status = some "pending" := by
  decide

/-- **C9, amended.** A feedback record can be created only for a PAID order
that belongs to the submitting client, and at most once per order: a missing
order, a non-owning client, an unpaid order and a duplicate submission are
each rejected with their specific error; a successful creation implies the
order existed, belonged to the client, was paid and was not yet reviewed —
and a second submission for the same order by the same client then fails
with the already-reviewed error. The order's business status (`completed`)
is not checked. -/
theorem c9_feedback_guards (st : FeedbackState) (now now2 : Date) (fd fd2 : FeedbackInput) :
    (st.orders fd.orderId = none →
      createFeedback st now fd = (⟨false, some "Order not found"⟩, st)) ∧
    (∀ o, st.orders fd.orderId = some o → o.customerId ≠ fd.clientId →
      createFeedback st now fd = (⟨false, some "You can only review your own orders"⟩, st)) ∧
    (∀ o, st.orders fd.orderId = some o → o.customerId = fd.clientId →
      o.paymentStatus ≠ "paid" →
      createFeedback st now fd = (⟨false, some "You can only review paid orders"⟩, st)) ∧
    (∀ o, st.orders fd.orderId = some o → o.customerId = fd.clientId →
      o.paymentStatus = "paid" →
      (st.feedbacks.filter (fun f => f.orderId == fd.orderId)).length ≠ 0 →
      createFeedback st now fd = (⟨false, some "You have already reviewed this order"⟩, st)) ∧
    ((createFeedback st now fd).1.success = true →
      (∃ o, st.orders fd.orderId = some o ∧ o.customerId = fd.clientId ∧
        o.paymentStatus = "paid") ∧
      (st.feedbacks.filter (fun f => f.orderId == fd.orderId)).length = 0 ∧
      (fd2.orderId = fd.orderId → fd2.clientId = fd.clientId →
        (createFeedback (createFeedback st now fd).2 now2 fd2).1
          = ⟨false, some "You have already reviewed this order"⟩)) := by
  refine ⟨createFeedback_notFound st now fd,
    fun o => createFeedback_notOwner st now fd o,
    fun o => createFeedback_notPaid st now fd o,
    fun o => createFeedback_dup st now fd o, ?_⟩
  intro hsucc
  cases horder : st.orders fd.orderId with
  | none =>
    rw [createFeedback_notFound st now fd horder] at hsucc
    simp at hsucc
  | some o =>
    by_cases hown : o.customerId = fd.clientId
    case neg =>
      rw [createFeedback_notOwner st now fd o horder hown] at hsucc
      simp at hsucc
    by_cases hpaid : o.paymentStatus = "paid"
    case neg =>
      rw [createFeedback_notPaid st now fd o horder hown hpaid] at hsucc
      simp at hsucc
    by_cases hdup : (st.feedbacks.filter (fun f => f.orderId == fd.orderId)).length = 0
    case neg =>
      rw [createFeedback_dup st now fd o horder hown hpaid hdup] at hsucc
      simp at hsucc
    cases hc : st.users fd.clientId with
    | none =>
      rw [createFeedback_badUsers st now fd o horder hown hpaid hdup (Or.inl hc)] at hsucc
      simp at hsucc
    | some client =>
      cases hp : st.users fd.providerId with
      | none =>
        rw [createFeedback_badUsers st now fd o horder hown hpaid hdup (Or.inr hp)] at hsucc
        simp at hsucc
      | some provider =>
        refine ⟨⟨o, rfl, hown, hpaid⟩, hdup, ?_⟩
        intro h2o h2c
        rw [createFeedback_ok st now fd o client provider horder hown hpaid hdup hc hp]
        dsimp only
        have horder2 : (updateProviderRating
            { st with feedbacks := st.feedbacks ++ [feedbackDocOf st now fd client provider] }
            fd.providerId).orders fd2.orderId = some o := by
          rw [updateProviderRating_orders]
          dsimp only
          rw [h2o]
          exact horder
        have hlen2 : ((updateProviderRating
            { st with feedbacks := st.feedbacks ++ [feedbackDocOf st now fd client provider] }
            fd.providerId).feedbacks.filter (fun f => f.orderId == fd2.orderId)).length ≠ 0 := by
          rw [updateProviderRating_feedbacks]
          dsimp only
          rw [h2o, List.filter_append]
          simp [feedbackDocOf]
        have hown2 : o.customerId = fd2.clientId := by
          rw [h2c]
          exact hown
        rw [createFeedback_dup _ now2 fd2 o horder2 hown2 hpaid hlen2]

/-- Witness for the amended C9: after the successful submission on the paid
order `o1`, the same client's second submission fails already-reviewed, and a
non-owning client is rejected. -/
theorem c9_feedback_guards_witness :
    (createFeedback (createFeedback exFeedbackState 5 exFeedbackInput).2 9 exFeedbackInput).1
      = ⟨false, some "You have already reviewed this order"⟩ ∧
    createFeedback exFeedbackState 5 ⟨"o1", "mallory", "p1", none, 5, none⟩
      = (⟨false, some "You can only review your own orders"⟩, exFeedbackState) :=
  ⟨((c9_feedback_guards exFeedbackState 5 9 exFeedbackInput exFeedbackInput).2.2.2.2
      rfl).2.2 rfl rfl,
   (c9_feedback_guards exFeedbackState 5 9 ⟨"o1", "mallory", "p1", none, 5, none⟩
      exFeedbackInput).2.1 { exOrder with paymentStatus := "paid" } rfl (by decide)⟩

end PanicList
